import Mathlib

/-!
speedtest_exporter: measurement-and-metric-mapping pipeline

A shallow embedding of the two collectors of the repository,
`internal/bbk/bbk.go` (external binary backend) and
`internal/exporter/exporter.go` (hosted service backend).

Modelling conventions.

* A Go `chan<- prometheus.Metric` is modelled by the list of things sent on
  it, in order.  Together with the `log.Error`/`log.Errorf` calls (and, for
  the service backend, the calls made to the measurement provider) they form
  the *trace* of a run.
* A function that can panic returns an `Option` next to its trace: `none`
  means that it panicked and did not return; the trace is what it did before.
* A Go `string` is an arbitrary byte sequence.  The output of the backend
  process is modelled as a `GoString`, the sequence of decoding steps of the
  bytes: a validly encoded character, or a byte at which decoding fails.
  The strings handed out by the speed-test provider are decoded text and are
  modelled by Lean `String`.
* `float64` arithmetic is not modelled.  The numeric type and the operations
  the code uses on it (`strconv.ParseFloat`, `*`, `/`, numeric constants) are
  the fields of `Float64Ops`; every general theorem holds for all
  interpretations.  Scenarios with concrete numbers are evaluated in the
  exact-arithmetic interpretation `decimalOps` over `ℚ`.
* The external process and the speed-test provider are black boxes whose
  answers are parameters of the model.
-/

/-! ## Go strings -/

/-- One step of the UTF-8 decoding of a Go string (`utf8.DecodeRuneInString`): a validly
encoded character, or a byte at which decoding fails (decoded as `utf8.RuneError` of
width 1). -/
inductive GoRune where
  | char (c : Char)
  | invalid (b : Nat)
  deriving DecidableEq, Repr

/-- A Go `string` seen through its UTF-8 decoding. -/
abbrev GoString : Type := List GoRune

/-- The Go string holding the UTF-8 encoding of a text. -/
def gostr (s : String) : GoString :=
  s.data.map GoRune.char

/-- Whether a decoding step is a validly encoded character. -/
def GoRune.isValid : GoRune → Bool
  | GoRune.char _ => true
  | GoRune.invalid _ => false

/-- Test `utf8.ValidString`: no byte at which decoding fails. -/
def ValidString (s : GoString) : Bool :=
  s.all GoRune.isValid

/-- Character class `unicode.IsSpace`. -/
def isSpace (c : Char) : Bool :=
  let n := c.toNat
  n = 0x09 || n = 0x0A || n = 0x0B || n = 0x0C || n = 0x0D || n = 0x20 ||
  n = 0x85 || n = 0xA0 || n = 0x1680 || (0x2000 ≤ n && n ≤ 0x200A) ||
  n = 0x2028 || n = 0x2029 || n = 0x202F || n = 0x205F || n = 0x3000

/-- Whether a decoding step is a space for `strings.Fields`; `utf8.RuneError` is not. -/
def isSpaceRune : GoRune → Bool
  | GoRune.char c => isSpace c
  | GoRune.invalid _ => false

/-- Scan of `strings.Fields`: `cur` holds the field being read, most recent step
first. -/
def fieldsAux : List GoRune → List GoRune → List GoString
  | [], cur => if cur.isEmpty then [] else [cur.reverse]
  | r :: rs, cur =>
    if isSpaceRune r then
      if cur.isEmpty then fieldsAux rs [] else cur.reverse :: fieldsAux rs []
    else fieldsAux rs (r :: cur)

/-- Splitter `strings.Fields`: the maximal runs without a space, in order. -/
def Fields (s : GoString) : List GoString :=
  fieldsAux s []

/-- Conversion `strconv.Itoa`: the decimal string of an integer. -/
def Itoa (i : Int) : String :=
  if i < 0 then "-" ++ Nat.repr i.natAbs else Nat.repr i.toNat

/-- The numeric operations the collectors use on `float64`. -/
structure Float64Ops (F : Type) where
  /-- Parser `strconv.ParseFloat(s, 64)`; `none` when it returns a non-nil error. -/
  ParseFloat : GoString → Option F
  /-- Product `x * y`. -/
  mul : F → F → F
  /-- Quotient `x / y`. -/
  div : F → F → F
  /-- Value of a numeric constant such as `1.0`, `1000.0` or `125000`. -/
  lit : Nat → F

/-! ## Library interface: `prometheus` -/

namespace prometheus

/-- Metric identity, as built by `prometheus.NewDesc(fqName, help, variableLabels, nil)`. -/
structure Desc where
  fqName : String
  help : String
  variableLabels : List String
  deriving DecidableEq, Repr

/-- Metric name builder `prometheus.BuildFQName`: the non-empty parts joined by `_`;
empty when `name` is empty. -/
def BuildFQName (namespace_ subsystem name : String) : String :=
  if name = "" then ""
  else if namespace_ ≠ "" ∧ subsystem ≠ "" then namespace_ ++ "_" ++ subsystem ++ "_" ++ name
  else if namespace_ ≠ "" then namespace_ ++ "_" ++ name
  else if subsystem ≠ "" then subsystem ++ "_" ++ name
  else name

/-- Constructor `prometheus.NewDesc` without constant labels. -/
def NewDesc (fqName help : String) (variableLabels : List String) : Desc :=
  { fqName := fqName, help := help, variableLabels := variableLabels }

/-- A gauge sample: descriptor, value and label values. -/
structure Metric (F : Type) where
  desc : Desc
  value : F
  labelValues : List GoString
  deriving DecidableEq, Repr

/-- Gauge constructor
`prometheus.MustNewConstMetric(desc, prometheus.GaugeValue, value, labelValues...)`.
It panics (`none`) when the number of label values is not the number of label names of
the descriptor, or when a label value is not valid UTF-8. -/
def MustNewConstMetric {F : Type} (desc : Desc) (value : F) (labelValues : List GoString) :
    Option (Metric F) :=
  if labelValues.length = desc.variableLabels.length ∧
      labelValues.all ValidString = true then
    some { desc := desc, value := value, labelValues := labelValues }
  else none

end prometheus

/-! ## Package `bbk` (`internal/bbk/bbk.go`) -/

namespace bbk

open prometheus

def namespace_ : String := "bbk"

/-- Constant `mbitsToBytes`: 1 Mbit/s = 125000 bytes/s. -/
def mbitsToBytes : Nat := 125000

def up : Desc :=
  NewDesc (BuildFQName namespace_ "" "up") "Was the last BBK measurement successful." []

def scrapeDurationSeconds : Desc :=
  NewDesc (BuildFQName namespace_ "" "scrape_duration_seconds")
    "Time to perform last BBK measurement" []

def latency : Desc :=
  NewDesc (BuildFQName namespace_ "" "latency_seconds")
    "Measured latency on last BBK measurement" ["server", "isp"]

def upload : Desc :=
  NewDesc (BuildFQName namespace_ "" "upload_speed_Bps")
    "Last BBK upload measurement result" ["server", "isp"]

def download : Desc :=
  NewDesc (BuildFQName namespace_ "" "download_speed_Bps")
    "Last BBK download measurement result" ["server", "isp"]

/-- Configuration of the BBK collector. -/
structure Exporter where
  binaryPath : String
  deriving DecidableEq, Repr

/-- Constructor `New`. -/
def New (binaryPath : String) : Exporter :=
  { binaryPath := binaryPath }

/-- The `log.Error`/`log.Errorf` calls of the package, one constructor per call site,
with the arguments that come from the program (the error text is left out). -/
inductive LogMsg where
  | stdoutPipeFailed
  | startFailed
  | commandFailed
  | noOutput
  | unexpectedFormat (n : Nat) (line : GoString)
  | badDownload (field : GoString)
  | badUpload (field : GoString)
  | badLatency (field : GoString)
  deriving DecidableEq, Repr

/-- What a run does that can be observed: log calls and sends on the metric channel. -/
inductive Event (F : Type) where
  | log (m : LogMsg)
  | emit (m : Metric F)
  deriving DecidableEq, Repr

/-- The metrics sent on the channel, in order. -/
def emitted {F : Type} : List (Event F) → List (Metric F)
  | [] => []
  | Event.emit m :: t => m :: emitted t
  | Event.log _ :: t => emitted t

/-- One execution of `exec.CommandContext(ctx, path, args...)` as seen by `measure`. -/
structure Cmd where
  /-- Whether `cmd.StdoutPipe()` returns an error. -/
  pipeErr : Bool
  /-- Whether `cmd.Start()` returns an error. -/
  startErr : Bool
  /-- The successive values of `scanner.Text()` while `scanner.Scan()` holds. -/
  lines : List GoString
  /-- Whether `cmd.Wait()` returns an error (non-zero exit, or killed at the timeout). -/
  waitErr : Bool
  deriving DecidableEq, Repr

/-- Describe sends the five metric identities. -/
def Describe (_e : Exporter) : List Desc :=
  [up, scrapeDurationSeconds, latency, upload, download]

/-- Parser of the `--quiet` output line:
`download upload latency server isp ticket measurement_id [rating]`.
Each metric is built before it is sent, so a panic of `MustNewConstMetric` leaves the
sends made so far. -/
def parseQuietOutput {F : Type} (ops : Float64Ops F) (line : GoString) :
    Option Bool × List (Event F) :=
  let fields := Fields line
  if fields.length < 5 then
    (some false, [Event.log (LogMsg.unexpectedFormat fields.length line)])
  else
    match ops.ParseFloat (fields.getD 0 []) with
    | none => (some false, [Event.log (LogMsg.badDownload (fields.getD 0 []))])
    | some dlMbits =>
      match ops.ParseFloat (fields.getD 1 []) with
      | none => (some false, [Event.log (LogMsg.badUpload (fields.getD 1 []))])
      | some ulMbits =>
        match ops.ParseFloat (fields.getD 2 []) with
        | none => (some false, [Event.log (LogMsg.badLatency (fields.getD 2 []))])
        | some latencyMs =>
          let server := fields.getD 3 []
          let isp := fields.getD 4 []
          match MustNewConstMetric download
              (ops.mul dlMbits (ops.lit mbitsToBytes)) [server, isp] with
          | none => (none, [])
          | some m1 =>
            match MustNewConstMetric upload
                (ops.mul ulMbits (ops.lit mbitsToBytes)) [server, isp] with
            | none => (none, [Event.emit m1])
            | some m2 =>
              match MustNewConstMetric latency
                  (ops.div latencyMs (ops.lit 1000)) [server, isp] with
              | none => (none, [Event.emit m1, Event.emit m2])
              | some m3 => (some true, [Event.emit m1, Event.emit m2, Event.emit m3])

/-- The scanning loop of `measure`: `resultLine` starts empty and is overwritten by
every scanned line. -/
def scanLoop (lines : List GoString) : GoString :=
  lines.foldl (fun _resultLine text => text) []

/-- Runner of the binary backend.  `sys path args` is the execution the operating
system gives for that command line. -/
def measure {F : Type} (ops : Float64Ops F) (sys : String → List String → Cmd)
    (e : Exporter) : Option Bool × List (Event F) :=
  let cmd := sys e.binaryPath ["--quiet", "--ssl"]
  if cmd.pipeErr then (some false, [Event.log LogMsg.stdoutPipeFailed])
  else if cmd.startErr then (some false, [Event.log LogMsg.startFailed])
  else
    let resultLine := scanLoop cmd.lines
    if cmd.waitErr then (some false, [Event.log LogMsg.commandFailed])
    else if resultLine = [] then (some false, [Event.log LogMsg.noOutput])
    else parseQuietOutput ops resultLine

/-- One collection cycle of the binary backend.  `elapsed` is the value of
`time.Since(start).Seconds()`.  There is no `recover`: a panic of the runner is a panic
of `Collect`, before `up` and the duration are sent. -/
def Collect {F : Type} (ops : Float64Ops F) (sys : String → List String → Cmd)
    (e : Exporter) (elapsed : F) : Option Unit × List (Event F) :=
  match measure ops sys e with
  | (none, tr) => (none, tr)
  | (some ok, tr) =>
    match (if ok then MustNewConstMetric up (ops.lit 1) []
           else MustNewConstMetric up (ops.lit 0) []) with
    | none => (none, tr)
    | some mUp =>
      match MustNewConstMetric scrapeDurationSeconds elapsed [] with
      | none => (none, tr ++ [Event.emit mUp])
      | some mDuration => (some (), tr ++ [Event.emit mUp, Event.emit mDuration])

end bbk
/-! ## Package `exporter` (`internal/exporter/exporter.go`) -/

namespace exporter

open prometheus

def namespace_ : String := "speedtest"

def up : Desc :=
  NewDesc (BuildFQName namespace_ "" "up") "Was the last speedtest successful." []

def scrapeDurationSeconds : Desc :=
  NewDesc (BuildFQName namespace_ "" "scrape_duration_seconds")
    "Time to perform last speed test" []

def latency : Desc :=
  NewDesc (BuildFQName namespace_ "" "latency_seconds")
    "Measured latency on last speed test"
    ["server_id", "server_name", "server_country", "user_isp"]

def upload : Desc :=
  NewDesc (BuildFQName namespace_ "" "upload_speed_Bps")
    "Last upload speedtest result"
    ["server_id", "server_name", "server_country", "user_isp"]

def download : Desc :=
  NewDesc (BuildFQName namespace_ "" "download_speed_Bps")
    "Last download speedtest result"
    ["server_id", "server_name", "server_country", "user_isp"]

/-- Configuration of the speedtest collector. -/
structure Exporter where
  serverID : Int
  serverFallback : Bool
  deriving DecidableEq, Repr

/-- Constructor `New` (its error result is always nil). -/
def New (serverID : Int) (serverFallback : Bool) : Exporter :=
  { serverID := serverID, serverFallback := serverFallback }

/-- The part of `speedtest.User` the collector reads.  The provider decodes it from the
answer of the service, so it is text. -/
structure User where
  Isp : String
  deriving DecidableEq, Repr

/-- The part of `speedtest.Server` the collector reads; its strings are text decoded by
the provider.  `Latency` stands for
`server.Latency.Seconds()`, `DLSpeed` and `ULSpeed` for `float64(server.DLSpeed)` and
`float64(server.ULSpeed)`. -/
structure Server (F : Type) where
  ID : String
  Name : String
  Country : String
  Latency : F
  DLSpeed : F
  ULSpeed : F
  deriving DecidableEq, Repr

/-- The measurement provider (package `speedtest`), a black box with its own state `σ`.
A fetch or lookup answers `none` when it returns a non-nil error.  A sub-test answers
whether it returned a non-nil error, and the value it leaves in the field of the server it
measures. -/
structure Provider (σ F : Type) where
  FetchUserInfo : σ → Option User × σ
  FetchServers : σ → Option (List (Server F)) × σ
  FindServer : σ → List (Server F) → List Int → Option (List (Server F)) × σ
  PingTest : σ → Server F → Bool × F × σ
  DownloadTest : σ → Server F → Bool × F × σ
  UploadTest : σ → Server F → Bool × F × σ

/-- The calls made to the provider. -/
inductive Call (F : Type) where
  | FetchUserInfo
  | FetchServers
  | FindServer (serverID : List Int)
  | PingTest (server : Server F)
  | DownloadTest (server : Server F)
  | UploadTest (server : Server F)
  deriving DecidableEq, Repr

/-- The `log.Error`/`log.Errorf` calls of the package, one constructor per call site. -/
inductive LogMsg where
  | userInfoFailed
  | serverListFailed
  | noServers
  | findServerFailed
  | serverNotFound (serverID : Int)
  | serverMismatch (serverID : Int)
  | pingFailed
  | downloadFailed
  | uploadFailed
  deriving DecidableEq, Repr

/-- What a run does that can be observed: provider calls, log calls and sends on the
metric channel. -/
inductive Event (F : Type) where
  | call (c : Call F)
  | log (m : LogMsg)
  | emit (m : Metric F)
  deriving DecidableEq, Repr

/-- The metrics sent on the channel, in order. -/
def emitted {F : Type} : List (Event F) → List (Metric F)
  | [] => []
  | Event.emit m :: t => m :: emitted t
  | Event.call _ :: t => emitted t
  | Event.log _ :: t => emitted t

/-- The provider calls made, in order. -/
def calls {F : Type} : List (Event F) → List (Call F)
  | [] => []
  | Event.call c :: t => c :: calls t
  | Event.emit _ :: t => calls t
  | Event.log _ :: t => calls t

/-- Describe sends the five metric identities. -/
def Describe (_e : Exporter) : List Desc :=
  [up, scrapeDurationSeconds, latency, upload, download]

/-- Latency sub-test.  Returns the outcome (`none` for a panic), the server as the call
left it, the trace and the provider state. -/
def pingTest {σ F : Type} (p : Provider σ F) (user : User) (server : Server F) (s : σ) :
    Option Bool × Server F × List (Event F) × σ :=
  let r := p.PingTest s server
  let server1 := { server with Latency := r.2.1 }
  if r.1 then
    (some false, server1,
      [Event.call (Call.PingTest server), Event.log LogMsg.pingFailed], r.2.2)
  else
    match MustNewConstMetric latency server1.Latency
        [gostr server1.ID, gostr server1.Name, gostr server1.Country, gostr user.Isp] with
    | none => (none, server1, [Event.call (Call.PingTest server)], r.2.2)
    | some m =>
      (some true, server1, [Event.call (Call.PingTest server), Event.emit m], r.2.2)

/-- Download sub-test. -/
def downloadTest {σ F : Type} (p : Provider σ F) (user : User) (server : Server F) (s : σ) :
    Option Bool × Server F × List (Event F) × σ :=
  let r := p.DownloadTest s server
  let server1 := { server with DLSpeed := r.2.1 }
  if r.1 then
    (some false, server1,
      [Event.call (Call.DownloadTest server), Event.log LogMsg.downloadFailed], r.2.2)
  else
    match MustNewConstMetric download server1.DLSpeed
        [gostr server1.ID, gostr server1.Name, gostr server1.Country, gostr user.Isp] with
    | none => (none, server1, [Event.call (Call.DownloadTest server)], r.2.2)
    | some m =>
      (some true, server1, [Event.call (Call.DownloadTest server), Event.emit m], r.2.2)

/-- Upload sub-test. -/
def uploadTest {σ F : Type} (p : Provider σ F) (user : User) (server : Server F) (s : σ) :
    Option Bool × Server F × List (Event F) × σ :=
  let r := p.UploadTest s server
  let server1 := { server with ULSpeed := r.2.1 }
  if r.1 then
    (some false, server1,
      [Event.call (Call.UploadTest server), Event.log LogMsg.uploadFailed], r.2.2)
  else
    match MustNewConstMetric upload server1.ULSpeed
        [gostr server1.ID, gostr server1.Name, gostr server1.Country, gostr user.Isp] with
    | none => (none, server1, [Event.call (Call.UploadTest server)], r.2.2)
    | some m =>
      (some true, server1, [Event.call (Call.UploadTest server), Event.emit m], r.2.2)

/-- First part of `speedtest`: user information, server list and choice of the server.
Answers `none` where `speedtest` returns false before the sub-tests. -/
def selectServer {σ F : Type} (p : Provider σ F) (e : Exporter) (s : σ) :
    Option (User × Server F) × List (Event F) × σ :=
  match p.FetchUserInfo s with
  | (none, s1) =>
    (none, [Event.call Call.FetchUserInfo, Event.log LogMsg.userInfoFailed], s1)
  | (some user, s1) =>
    match p.FetchServers s1 with
    | (none, s2) =>
      (none, [Event.call Call.FetchUserInfo, Event.call Call.FetchServers,
        Event.log LogMsg.serverListFailed], s2)
    | (some servers, s2) =>
      match servers with
      | [] =>
        (none, [Event.call Call.FetchUserInfo, Event.call Call.FetchServers,
          Event.log LogMsg.noServers], s2)
      | servers0 :: _ =>
        if e.serverID = -1 then
          (some (user, servers0),
            [Event.call Call.FetchUserInfo, Event.call Call.FetchServers], s2)
        else
          match p.FindServer s2 servers [e.serverID] with
          | (none, s3) =>
            (none, [Event.call Call.FetchUserInfo, Event.call Call.FetchServers,
              Event.call (Call.FindServer [e.serverID]),
              Event.log LogMsg.findServerFailed], s3)
          | (some [], s3) =>
            (none, [Event.call Call.FetchUserInfo, Event.call Call.FetchServers,
              Event.call (Call.FindServer [e.serverID]),
              Event.log (LogMsg.serverNotFound e.serverID)], s3)
          | (some (found0 :: _), s3) =>
            if found0.ID ≠ Itoa e.serverID ∧ ¬ e.serverFallback then
              (none, [Event.call Call.FetchUserInfo, Event.call Call.FetchServers,
                Event.call (Call.FindServer [e.serverID]),
                Event.log (LogMsg.serverMismatch e.serverID)], s3)
            else
              (some (user, found0),
                [Event.call Call.FetchUserInfo, Event.call Call.FetchServers,
                 Event.call (Call.FindServer [e.serverID])], s3)

/-- Runner of the service backend (`none` for a panic). -/
def speedtest {σ F : Type} (p : Provider σ F) (e : Exporter) (s : σ) :
    Option Bool × List (Event F) × σ :=
  match selectServer p e s with
  | (none, tr, s1) => (some false, tr, s1)
  | (some (user, server), tr, s1) =>
    let r1 := pingTest p user server s1
    match r1.1 with
    | none => (none, tr ++ r1.2.2.1, r1.2.2.2)
    | some ok1 =>
      let r2 := downloadTest p user r1.2.1 r1.2.2.2
      match r2.1 with
      | none => (none, tr ++ r1.2.2.1 ++ r2.2.2.1, r2.2.2.2)
      | some ok2 =>
        let ok := ok2 && ok1
        let r3 := uploadTest p user r2.2.1 r2.2.2.2
        match r3.1 with
        | none => (none, tr ++ r1.2.2.1 ++ r2.2.2.1 ++ r3.2.2.1, r3.2.2.2)
        | some ok3 =>
          let ok := ok3 && ok
          (some ok, tr ++ r1.2.2.1 ++ r2.2.2.1 ++ r3.2.2.1, r3.2.2.2)

/-- One collection cycle of the service backend.  `elapsed` is the value of
`time.Since(start).Seconds()`. -/
def Collect {σ F : Type} (ops : Float64Ops F) (p : Provider σ F) (e : Exporter) (s : σ)
    (elapsed : F) : Option Unit × List (Event F) × σ :=
  match speedtest p e s with
  | (none, tr, s1) => (none, tr, s1)
  | (some ok, tr, s1) =>
    match (if ok then MustNewConstMetric up (ops.lit 1) []
           else MustNewConstMetric up (ops.lit 0) []) with
    | none => (none, tr, s1)
    | some mUp =>
      match MustNewConstMetric scrapeDurationSeconds elapsed [] with
      | none => (none, tr ++ [Event.emit mUp], s1)
      | some mDuration => (some (), tr ++ [Event.emit mUp, Event.emit mDuration], s1)

end exporter

/-! ## Exact-arithmetic interpretation of the numeric interface -/

/-- Value of a run of decimal digits, `none` if a character is not a digit. -/
def digitsValue : List Char → Nat → Option Nat
  | [], acc => some acc
  | c :: cs, acc =>
    if c.isDigit then digitsValue cs (acc * 10 + (c.toNat - 48)) else none

/-- Unsigned decimal numeral `ddd` or `ddd.ddd` with at least one digit and at most
fifteen digits on each side of the point. -/
def parseUnsignedDecimal (cs : List Char) : Option ℚ :=
  let ip := cs.takeWhile (fun c => c != Char.ofNat 46)
  let rest := cs.dropWhile (fun c => c != Char.ofNat 46)
  let fp := rest.drop 1
  if (ip.isEmpty && fp.isEmpty) || 15 < ip.length || 15 < fp.length then none
  else
    match digitsValue ip 0, digitsValue fp 0 with
    | some a, some b => some ((a : ℚ) + (b : ℚ) / (10 : ℚ) ^ fp.length)
    | _, _ => none

/-- The characters of a Go string that is valid UTF-8. -/
def charsOf : GoString → Option (List Char)
  | [] => some []
  | GoRune.char c :: t => (charsOf t).map (fun cs => c :: cs)
  | GoRune.invalid _ :: _ => none

/-- Exact value of a short plain decimal numeral with an optional sign.  This is not
`strconv.ParseFloat`: it rejects many strings that function accepts (exponents, `NaN`,
`Inf`, hexadecimal, underscores, long numerals) and it does not round to binary64.  It
serves to evaluate the scenarios. -/
def parseDecimal (s : GoString) : Option ℚ :=
  match charsOf s with
  | none => none
  | some [] => none
  | some (c :: cs) =>
    if c = Char.ofNat 45 then (parseUnsignedDecimal cs).map (fun q => -q)
    else if c = Char.ofNat 43 then parseUnsignedDecimal cs
    else parseUnsignedDecimal (c :: cs)

/-- Exact rational arithmetic on short plain decimal numerals. -/
def decimalOps : Float64Ops ℚ :=
  { ParseFloat := parseDecimal
    mul := fun x y => x * y
    div := fun x y => x / y
    lit := fun n => (n : ℚ) }

/-! ## Reference definitions and scenario data -/

/-- The line the specification names as the parser input: the last non-empty line of the
standard output, if there is one. -/
def lastNonEmptyLine (lines : List GoString) : Option GoString :=
  (lines.filter (fun l => l ≠ [])).getLast?

/-- A clean run of the backend process printing `lines`. -/
def cleanRun (lines : List GoString) : String → List String → bbk.Cmd :=
  fun _ _ => { pipeErr := false, startErr := false, lines := lines, waitErr := false }

/-- A summary line whose server field holds the byte `0xff`, which is never part of a
UTF-8 encoding: the bytes of `2 4 500 srv`, `0xff`, and the bytes of `01 ExampleISP`. -/
def badLabelLine : GoString :=
  gostr "2 4 500 srv" ++ [GoRune.invalid 255] ++ gostr "01 ExampleISP"

/-- A provider that gives the same scripted answers whatever its state. -/
def scriptedProvider (user : Option exporter.User)
    (servers found : Option (List (exporter.Server ℚ)))
    (ping download upload : Bool × ℚ) : exporter.Provider Unit ℚ :=
  { FetchUserInfo := fun s => (user, s)
    FetchServers := fun s => (servers, s)
    FindServer := fun s _ _ => (found, s)
    PingTest := fun s _ => (ping.1, ping.2, s)
    DownloadTest := fun s _ => (download.1, download.2, s)
    UploadTest := fun s _ => (upload.1, upload.2, s) }

/-- A server with identifier 5002 on which nothing has been measured yet. -/
def server5002 : exporter.Server ℚ :=
  { ID := "5002", Name := "Stockholm", Country := "Sweden",
    Latency := 0, DLSpeed := 0, ULSpeed := 0 }

/-- A second server, further away. -/
def server7000 : exporter.Server ℚ :=
  { ID := "7000", Name := "Oslo", Country := "Norway",
    Latency := 0, DLSpeed := 0, ULSpeed := 0 }

/-! ## Auxiliary facts -/

theorem scanLoop_foldl (lines : List GoString) (init : GoString) :
    lines.foldl (fun _resultLine text => text) init = lines.getLast?.getD init := by
  induction lines generalizing init with
  | nil => rfl
  | cons a t ih =>
    rw [List.foldl_cons, ih a]
    cases t with
    | nil => rfl
    | cons b u =>
      rw [List.getLast?_cons_cons]
      cases hlast : (b :: u).getLast? with
      | none => simp at hlast
      | some x => rfl

theorem scanLoop_eq_getLast (lines : List GoString) :
    bbk.scanLoop lines = lines.getLast?.getD [] :=
  scanLoop_foldl lines []

theorem getD_of_take_eq {l1 l2 : List GoString} {n : Nat} (h : l1.take n = l2.take n)
    (i : Nat) (hi : i < n) : l1.getD i [] = l2.getD i [] := by
  have h1 : (l1.take n).getD i [] = l1.getD i [] := by
    simp [List.getD_eq_getElem?_getD, List.getElem?_take, hi]
  have h2 : (l2.take n).getD i [] = l2.getD i [] := by
    simp [List.getD_eq_getElem?_getD, List.getElem?_take, hi]
  rw [← h1, ← h2, h]

theorem length_ge_of_take_eq {l1 l2 : List GoString} {n : Nat} (h : l1.take n = l2.take n)
    (hn : n ≤ l2.length) : n ≤ l1.length := by
  have h1 : (l1.take n).length = (l2.take n).length := by rw [h]
  simp [List.length_take] at h1
  omega

theorem validString_gostr (s : String) : ValidString (gostr s) = true := by
  simp [ValidString, gostr, GoRune.isValid]

theorem mustNewConstMetric_nil {F : Type} (desc : prometheus.Desc) (v : F)
    (h : desc.variableLabels.length = 0) :
    prometheus.MustNewConstMetric desc v [] = some ⟨desc, v, []⟩ := by
  simp [prometheus.MustNewConstMetric, h]

theorem mustNewConstMetric_two {F : Type} (desc : prometheus.Desc) (v : F)
    (a b : GoString) (h : desc.variableLabels.length = 2) :
    prometheus.MustNewConstMetric desc v [a, b] =
      if ValidString a = true ∧ ValidString b = true then some ⟨desc, v, [a, b]⟩
      else none := by
  simp [prometheus.MustNewConstMetric, h]

theorem mustNewConstMetric_text {F : Type} (desc : prometheus.Desc) (v : F)
    (a b c d : String) (h : desc.variableLabels.length = 4) :
    prometheus.MustNewConstMetric desc v [gostr a, gostr b, gostr c, gostr d] =
      some ⟨desc, v, [gostr a, gostr b, gostr c, gostr d]⟩ := by
  simp [prometheus.MustNewConstMetric, h, validString_gostr]

theorem parseQuietOutput_eq {F : Type} (ops : Float64Ops F) (line : GoString) :
    bbk.parseQuietOutput ops line =
      if (Fields line).length < 5 then
        (some false,
          [bbk.Event.log (bbk.LogMsg.unexpectedFormat (Fields line).length line)])
      else
        match ops.ParseFloat ((Fields line).getD 0 []) with
        | none =>
          (some false, [bbk.Event.log (bbk.LogMsg.badDownload ((Fields line).getD 0 []))])
        | some d =>
          match ops.ParseFloat ((Fields line).getD 1 []) with
          | none =>
            (some false, [bbk.Event.log (bbk.LogMsg.badUpload ((Fields line).getD 1 []))])
          | some u =>
            match ops.ParseFloat ((Fields line).getD 2 []) with
            | none =>
              (some false,
                [bbk.Event.log (bbk.LogMsg.badLatency ((Fields line).getD 2 []))])
            | some l =>
              if ValidString ((Fields line).getD 3 []) = true ∧
                  ValidString ((Fields line).getD 4 []) = true then
                (some true,
                  [bbk.Event.emit ⟨bbk.download, ops.mul d (ops.lit 125000),
                    [(Fields line).getD 3 [], (Fields line).getD 4 []]⟩,
                   bbk.Event.emit ⟨bbk.upload, ops.mul u (ops.lit 125000),
                    [(Fields line).getD 3 [], (Fields line).getD 4 []]⟩,
                   bbk.Event.emit ⟨bbk.latency, ops.div l (ops.lit 1000),
                    [(Fields line).getD 3 [], (Fields line).getD 4 []]⟩])
              else (none, []) := by
  unfold bbk.parseQuietOutput
  simp only [mustNewConstMetric_two _ _ _ _ (show bbk.download.variableLabels.length = 2 from rfl),
    mustNewConstMetric_two _ _ _ _ (show bbk.upload.variableLabels.length = 2 from rfl),
    mustNewConstMetric_two _ _ _ _ (show bbk.latency.variableLabels.length = 2 from rfl),
    bbk.mbitsToBytes]
  split
  · rfl
  · split
    · rfl
    · split
      · rfl
      · split
        · rfl
        · by_cases hv : ValidString ((Fields line).getD 3 []) = true ∧
              ValidString ((Fields line).getD 4 []) = true
          · simp only [if_pos hv]
          · simp only [if_neg hv]

theorem parseQuietOutput_emitted_desc {F : Type} (ops : Float64Ops F) (line : GoString) :
    ∀ m ∈ bbk.emitted (bbk.parseQuietOutput ops line).2,
      m.desc = bbk.download ∨ m.desc = bbk.upload ∨ m.desc = bbk.latency := by
  rw [parseQuietOutput_eq]
  repeat' split
  all_goals simp [bbk.emitted]

theorem parseQuietOutput_emitted_length {F : Type} (ops : Float64Ops F) (line : GoString) :
    (bbk.emitted (bbk.parseQuietOutput ops line).2).length ≤ 3 := by
  rw [parseQuietOutput_eq]
  repeat' split
  all_goals simp [bbk.emitted]

theorem parseQuietOutput_ne_noOutput {F : Type} (ops : Float64Ops F) (line : GoString) :
    bbk.parseQuietOutput ops line ≠ (some false, [bbk.Event.log bbk.LogMsg.noOutput]) := by
  rw [parseQuietOutput_eq]
  repeat' split
  all_goals simp

theorem parseQuietOutput_panics {F : Type} (ops : Float64Ops F) (line : GoString)
    (d u l : F) (h5 : 5 ≤ (Fields line).length)
    (hd : ops.ParseFloat ((Fields line).getD 0 []) = some d)
    (hu : ops.ParseFloat ((Fields line).getD 1 []) = some u)
    (hl : ops.ParseFloat ((Fields line).getD 2 []) = some l)
    (hbad : ¬ (ValidString ((Fields line).getD 3 []) = true ∧
      ValidString ((Fields line).getD 4 []) = true)) :
    bbk.parseQuietOutput ops line = (none, []) := by
  rw [parseQuietOutput_eq]
  simp only [Nat.not_lt.mpr h5, if_false, hd, hu, hl, if_neg hbad]

theorem bbk_emitted_append {F : Type} (a b : List (bbk.Event F)) :
    bbk.emitted (a ++ b) = bbk.emitted a ++ bbk.emitted b := by
  induction a with
  | nil => rfl
  | cons x t ih => cases x <;> simp [bbk.emitted, ih]

theorem fieldsAux_spaces (rs : List GoRune) (h : ∀ r ∈ rs, isSpaceRune r = true) :
    fieldsAux rs [] = [] := by
  induction rs with
  | nil => rfl
  | cons r t ih =>
    have hr : isSpaceRune r = true := h r (List.mem_cons_self r t)
    have ht : ∀ x ∈ t, isSpaceRune x = true := fun x hx => h x (List.mem_cons_of_mem r hx)
    simp [fieldsAux, hr, ih ht]

theorem measure_of_clean_run {F : Type} (ops : Float64Ops F)
    (sys : String → List String → bbk.Cmd) (e : bbk.Exporter) (lines : List GoString)
    (hrun : sys e.binaryPath ["--quiet", "--ssl"] =
      { pipeErr := false, startErr := false, lines := lines, waitErr := false }) :
    bbk.measure ops sys e =
      if lines.getLast?.getD [] = [] then (some false, [bbk.Event.log bbk.LogMsg.noOutput])
      else bbk.parseQuietOutput ops (lines.getLast?.getD []) := by
  unfold bbk.measure
  simp [hrun, scanLoop_eq_getLast]

theorem bbk_collect_of_returned {F : Type} (ops : Float64Ops F)
    (sys : String → List String → bbk.Cmd) (e : bbk.Exporter) (elapsed : F)
    (ok : Bool) (tr : List (bbk.Event F)) (h : bbk.measure ops sys e = (some ok, tr)) :
    bbk.Collect ops sys e elapsed =
      (some (),
        tr ++ [bbk.Event.emit ⟨bbk.up, if ok then ops.lit 1 else ops.lit 0, []⟩,
               bbk.Event.emit ⟨bbk.scrapeDurationSeconds, elapsed, []⟩]) := by
  unfold bbk.Collect
  rw [h]
  cases ok <;>
    simp [mustNewConstMetric_nil _ _ (show bbk.up.variableLabels.length = 0 from rfl),
      mustNewConstMetric_nil _ _
        (show bbk.scrapeDurationSeconds.variableLabels.length = 0 from rfl)]

theorem bbk_collect_of_panicked {F : Type} (ops : Float64Ops F)
    (sys : String → List String → bbk.Cmd) (e : bbk.Exporter) (elapsed : F)
    (tr : List (bbk.Event F)) (h : bbk.measure ops sys e = (none, tr)) :
    bbk.Collect ops sys e elapsed = (none, tr) := by
  unfold bbk.Collect
  rw [h]

theorem badLabelLine_fields :
    Fields badLabelLine =
      [gostr "2", gostr "4", gostr "500",
       gostr "srv" ++ [GoRune.invalid 255] ++ gostr "01", gostr "ExampleISP"] := by
  decide

theorem summaryLine_fields :
    Fields (gostr "150.5 20.3 12.8 srv01 ExampleISP") =
      [gostr "150.5", gostr "20.3", gostr "12.8", gostr "srv01", gostr "ExampleISP"] := by
  decide

theorem parseDecimal_150_5 : parseDecimal (gostr "150.5") = some (301 / 2) := by
  simp [parseDecimal, parseUnsignedDecimal, digitsValue, gostr, charsOf]
  norm_num

theorem parseDecimal_20_3 : parseDecimal (gostr "20.3") = some (203 / 10) := by
  simp [parseDecimal, parseUnsignedDecimal, digitsValue, gostr, charsOf]
  norm_num

theorem parseDecimal_12_8 : parseDecimal (gostr "12.8") = some (64 / 5) := by
  simp [parseDecimal, parseUnsignedDecimal, digitsValue, gostr, charsOf]
  norm_num

theorem parseDecimal_2 : parseDecimal (gostr "2") = some 2 := by
  simp [parseDecimal, parseUnsignedDecimal, digitsValue, gostr, charsOf]

theorem parseDecimal_4 : parseDecimal (gostr "4") = some 4 := by
  simp [parseDecimal, parseUnsignedDecimal, digitsValue, gostr, charsOf]

theorem parseDecimal_500 : parseDecimal (gostr "500") = some 500 := by
  simp [parseDecimal, parseUnsignedDecimal, digitsValue, gostr, charsOf]

theorem parseDecimal_abc : parseDecimal (gostr "abc") = none := by
  simp [parseDecimal, parseUnsignedDecimal, digitsValue, gostr, charsOf]

/-! ## Binary backend: the output parser -/

/-- C1 as stated fails.  The line made of the bytes of `2 4 500 srv`, the byte `0xff` and
the bytes of `01 ExampleISP` has five fields and its first three fields parse as 2, 4 and
500, yet `parseQuietOutput` does not return true and sends no sample: building the first
metric panics, because the server field is not valid UTF-8. -/
theorem parseQuietOutput_invalid_label_counterexample :
    (Fields badLabelLine).length = 5 ∧
    decimalOps.ParseFloat ((Fields badLabelLine).getD 0 []) = some 2 ∧
    decimalOps.ParseFloat ((Fields badLabelLine).getD 1 []) = some 4 ∧
    decimalOps.ParseFloat ((Fields badLabelLine).getD 2 []) = some 500 ∧
    bbk.parseQuietOutput decimalOps badLabelLine = (none, []) ∧
    (bbk.parseQuietOutput decimalOps badLabelLine).1 ≠ some true := by
  have h0 : decimalOps.ParseFloat ((Fields badLabelLine).getD 0 []) = some 2 := by
    rw [badLabelLine_fields]
    exact parseDecimal_2
  have h1 : decimalOps.ParseFloat ((Fields badLabelLine).getD 1 []) = some 4 := by
    rw [badLabelLine_fields]
    exact parseDecimal_4
  have h2 : decimalOps.ParseFloat ((Fields badLabelLine).getD 2 []) = some 500 := by
    rw [badLabelLine_fields]
    exact parseDecimal_500
  have hp : bbk.parseQuietOutput decimalOps badLabelLine = (none, []) :=
    parseQuietOutput_panics decimalOps badLabelLine 2 4 500 (by decide) h0 h1 h2
      (by decide)
  refine ⟨by decide, h0, h1, h2, hp, ?_⟩
  rw [hp]
  simp

/-- C1, amended.  A line with at least five fields whose first three fields parse as
numbers `d`, `u`, `l` and whose fields 4 and 5 are valid UTF-8 makes `parseQuietOutput`
return true and send exactly three samples, download, upload, latency in this order, with
values `d * 125000`, `u * 125000`, `l / 1000` and label values (field 4, field 5); every
line with the same first five fields gives the same result. -/
theorem parseQuietOutput_valid {F : Type} (ops : Float64Ops F) (line : GoString)
    (d u l : F)
    (h5 : 5 ≤ (Fields line).length)
    (hd : ops.ParseFloat ((Fields line).getD 0 []) = some d)
    (hu : ops.ParseFloat ((Fields line).getD 1 []) = some u)
    (hl : ops.ParseFloat ((Fields line).getD 2 []) = some l)
    (hserver : ValidString ((Fields line).getD 3 []) = true)
    (hisp : ValidString ((Fields line).getD 4 []) = true) :
    bbk.parseQuietOutput ops line =
      (some true,
        [bbk.Event.emit ⟨bbk.download, ops.mul d (ops.lit 125000),
          [(Fields line).getD 3 [], (Fields line).getD 4 []]⟩,
         bbk.Event.emit ⟨bbk.upload, ops.mul u (ops.lit 125000),
          [(Fields line).getD 3 [], (Fields line).getD 4 []]⟩,
         bbk.Event.emit ⟨bbk.latency, ops.div l (ops.lit 1000),
          [(Fields line).getD 3 [], (Fields line).getD 4 []]⟩]) ∧
    ∀ other : GoString, (Fields other).take 5 = (Fields line).take 5 →
      bbk.parseQuietOutput ops other = bbk.parseQuietOutput ops line := by
  have key : ∀ ln : GoString, 5 ≤ (Fields ln).length →
      ops.ParseFloat ((Fields ln).getD 0 []) = some d →
      ops.ParseFloat ((Fields ln).getD 1 []) = some u →
      ops.ParseFloat ((Fields ln).getD 2 []) = some l →
      ValidString ((Fields ln).getD 3 []) = true →
      ValidString ((Fields ln).getD 4 []) = true →
      bbk.parseQuietOutput ops ln =
        (some true,
          [bbk.Event.emit ⟨bbk.download, ops.mul d (ops.lit 125000),
            [(Fields ln).getD 3 [], (Fields ln).getD 4 []]⟩,
           bbk.Event.emit ⟨bbk.upload, ops.mul u (ops.lit 125000),
            [(Fields ln).getD 3 [], (Fields ln).getD 4 []]⟩,
           bbk.Event.emit ⟨bbk.latency, ops.div l (ops.lit 1000),
            [(Fields ln).getD 3 [], (Fields ln).getD 4 []]⟩]) := by
    intro ln k5 kd ku kl k3 k4
    rw [parseQuietOutput_eq]
    simp only [Nat.not_lt.mpr k5, if_false, kd, ku, kl, if_pos (And.intro k3 k4)]
  refine ⟨key line h5 hd hu hl hserver hisp, ?_⟩
  intro other hother
  have e0 := getD_of_take_eq hother 0 (by decide)
  have e1 := getD_of_take_eq hother 1 (by decide)
  have e2 := getD_of_take_eq hother 2 (by decide)
  have e3 := getD_of_take_eq hother 3 (by decide)
  have e4 := getD_of_take_eq hother 4 (by decide)
  rw [key line h5 hd hu hl hserver hisp,
    key other (length_ge_of_take_eq hother h5) (e0 ▸ hd) (e1 ▸ hu) (e2 ▸ hl)
      (e3 ▸ hserver) (e4 ▸ hisp), e3, e4]

/-- C1, Scenario A.  The line `150.5 20.3 12.8 srv01 ExampleISP` gives download 18812500,
upload 2537500 and latency 0.0128 with labels (srv01, ExampleISP); trailing fields
change nothing. -/
theorem parseQuietOutput_valid_witness :
    bbk.parseQuietOutput decimalOps (gostr "150.5 20.3 12.8 srv01 ExampleISP") =
      (some true,
        [bbk.Event.emit ⟨bbk.download, 18812500, [gostr "srv01", gostr "ExampleISP"]⟩,
         bbk.Event.emit ⟨bbk.upload, 2537500, [gostr "srv01", gostr "ExampleISP"]⟩,
         bbk.Event.emit ⟨bbk.latency, 128 / 10000, [gostr "srv01", gostr "ExampleISP"]⟩]) ∧
    bbk.parseQuietOutput decimalOps
        (gostr "150.5 20.3 12.8 srv01 ExampleISP ticket 4711 5") =
      bbk.parseQuietOutput decimalOps (gostr "150.5 20.3 12.8 srv01 ExampleISP") := by
  have hd : decimalOps.ParseFloat
      ((Fields (gostr "150.5 20.3 12.8 srv01 ExampleISP")).getD 0 []) = some (301 / 2) := by
    rw [summaryLine_fields]
    exact parseDecimal_150_5
  have hu : decimalOps.ParseFloat
      ((Fields (gostr "150.5 20.3 12.8 srv01 ExampleISP")).getD 1 []) = some (203 / 10) := by
    rw [summaryLine_fields]
    exact parseDecimal_20_3
  have hl : decimalOps.ParseFloat
      ((Fields (gostr "150.5 20.3 12.8 srv01 ExampleISP")).getD 2 []) = some (64 / 5) := by
    rw [summaryLine_fields]
    exact parseDecimal_12_8
  have h := parseQuietOutput_valid decimalOps (gostr "150.5 20.3 12.8 srv01 ExampleISP")
    (301 / 2) (203 / 10) (64 / 5) (by decide) hd hu hl (by decide) (by decide)
  refine ⟨?_, h.2 _ (by decide)⟩
  rw [h.1, summaryLine_fields]
  simp [decimalOps]
  norm_num

/-- C2. A line with at least five fields in which field 1, 2 or 3 is rejected by the
number parser makes `parseQuietOutput` return false and send no sample at all; a cycle
whose process exits cleanly with this line as its last line sends only `up = 0` and the
duration. -/
theorem parseQuietOutput_invalid_numeric {F : Type} (ops : Float64Ops F) (line : GoString)
    (h5 : 5 ≤ (Fields line).length)
    (hbad : ops.ParseFloat ((Fields line).getD 0 []) = none ∨
      ops.ParseFloat ((Fields line).getD 1 []) = none ∨
      ops.ParseFloat ((Fields line).getD 2 []) = none) :
    (bbk.parseQuietOutput ops line).1 = some false ∧
    bbk.emitted (bbk.parseQuietOutput ops line).2 = [] ∧
    ∀ (sys : String → List String → bbk.Cmd) (e : bbk.Exporter) (elapsed : F)
      (lines : List GoString),
      sys e.binaryPath ["--quiet", "--ssl"] =
        { pipeErr := false, startErr := false, lines := lines, waitErr := false } →
      lines.getLast? = some line →
      (bbk.Collect ops sys e elapsed).1 = some () ∧
      bbk.emitted (bbk.Collect ops sys e elapsed).2 =
        [⟨bbk.up, ops.lit 0, []⟩, ⟨bbk.scrapeDurationSeconds, elapsed, []⟩] := by
  have hp : (bbk.parseQuietOutput ops line).1 = some false ∧
      bbk.emitted (bbk.parseQuietOutput ops line).2 = [] := by
    rw [parseQuietOutput_eq]
    simp only [Nat.not_lt.mpr h5, if_false]
    cases h0 : ops.ParseFloat ((Fields line).getD 0 []) with
    | none => simp [bbk.emitted]
    | some d =>
      cases h1 : ops.ParseFloat ((Fields line).getD 1 []) with
      | none => simp [bbk.emitted]
      | some u =>
        cases h2 : ops.ParseFloat ((Fields line).getD 2 []) with
        | none => simp [bbk.emitted]
        | some l =>
          rw [h0, h1, h2] at hbad
          simp at hbad
  refine ⟨hp.1, hp.2, ?_⟩
  intro sys e elapsed lines hrun hlast
  have hne : line ≠ [] := by
    intro hl
    rw [hl] at h5
    exact absurd h5 (by decide)
  have hm := measure_of_clean_run ops sys e lines hrun
  simp only [hlast, Option.getD_some, if_neg hne] at hm
  have hm2 : bbk.measure ops sys e = (some false, (bbk.parseQuietOutput ops line).2) := by
    rw [hm, ← hp.1]
  rw [bbk_collect_of_returned ops sys e elapsed false _ hm2]
  refine ⟨rfl, ?_⟩
  simp [bbk_emitted_append, hp.2, bbk.emitted]

/-- C2, Scenario B.  The line `abc 20.3 12.8 srv01 ExampleISP` sends no sample and the cycle
reports `up = 0`. -/
theorem parseQuietOutput_invalid_numeric_witness :
    (bbk.parseQuietOutput decimalOps (gostr "abc 20.3 12.8 srv01 ExampleISP")).1 =
      some false ∧
    bbk.emitted (bbk.parseQuietOutput decimalOps
      (gostr "abc 20.3 12.8 srv01 ExampleISP")).2 = [] ∧
    bbk.emitted (bbk.Collect decimalOps
      (cleanRun [gostr "abc 20.3 12.8 srv01 ExampleISP"]) (bbk.New "/usr/bin/bbk") 7).2 =
      [⟨bbk.up, 0, []⟩, ⟨bbk.scrapeDurationSeconds, 7, []⟩] := by
  have hf : Fields (gostr "abc 20.3 12.8 srv01 ExampleISP") =
      [gostr "abc", gostr "20.3", gostr "12.8", gostr "srv01", gostr "ExampleISP"] := by
    decide
  have hbad : decimalOps.ParseFloat
      ((Fields (gostr "abc 20.3 12.8 srv01 ExampleISP")).getD 0 []) = none := by
    rw [hf]
    exact parseDecimal_abc
  have h := parseQuietOutput_invalid_numeric decimalOps
    (gostr "abc 20.3 12.8 srv01 ExampleISP") (by decide) (Or.inl hbad)
  refine ⟨h.1, h.2.1, ?_⟩
  have h3 := (h.2.2 (cleanRun [gostr "abc 20.3 12.8 srv01 ExampleISP"])
    (bbk.New "/usr/bin/bbk") 7 [gostr "abc 20.3 12.8 srv01 ExampleISP"] rfl rfl).2
  simpa [decimalOps] using h3

/-- C3. A line with fewer than five fields makes `parseQuietOutput` return false, log the
number of fields and send no sample, whatever the fields are; a line of white space only
has no field. -/
theorem parseQuietOutput_too_few {F : Type} (ops : Float64Ops F) (line : GoString) :
    ((Fields line).length < 5 →
      bbk.parseQuietOutput ops line =
        (some false,
          [bbk.Event.log (bbk.LogMsg.unexpectedFormat (Fields line).length line)]) ∧
      bbk.emitted (bbk.parseQuietOutput ops line).2 = []) ∧
    ((∀ r ∈ line, isSpaceRune r = true) →
      Fields line = [] ∧
      bbk.parseQuietOutput ops line =
        (some false, [bbk.Event.log (bbk.LogMsg.unexpectedFormat 0 line)])) := by
  have key : (Fields line).length < 5 →
      bbk.parseQuietOutput ops line =
        (some false,
          [bbk.Event.log (bbk.LogMsg.unexpectedFormat (Fields line).length line)]) := by
    intro h
    rw [parseQuietOutput_eq]
    simp only [h, if_true]
  refine ⟨fun h => ⟨key h, ?_⟩, fun h => ?_⟩
  · rw [key h]
    rfl
  · have hf : Fields line = [] := fieldsAux_spaces line h
    refine ⟨hf, ?_⟩
    have hlen : (Fields line).length < 5 := by simp [hf]
    rw [key hlen, hf]
    rfl

/-- C3, examples: four well-formed fields, and a line of blanks. -/
theorem parseQuietOutput_too_few_witness :
    (bbk.parseQuietOutput decimalOps (gostr "150.5 20.3 12.8 srv01") =
        (some false,
          [bbk.Event.log (bbk.LogMsg.unexpectedFormat 4 (gostr "150.5 20.3 12.8 srv01"))]) ∧
      bbk.emitted (bbk.parseQuietOutput decimalOps (gostr "150.5 20.3 12.8 srv01")).2 =
        []) ∧
    (Fields (gostr "   ") = [] ∧
      bbk.parseQuietOutput decimalOps (gostr "   ") =
        (some false, [bbk.Event.log (bbk.LogMsg.unexpectedFormat 0 (gostr "   "))])) :=
  ⟨(parseQuietOutput_too_few decimalOps (gostr "150.5 20.3 12.8 srv01")).1 (by decide),
   (parseQuietOutput_too_few decimalOps (gostr "   ")).2 (by decide)⟩

/-! ## Binary backend: the runner -/

/-- C7 as stated fails.  With the summary line followed by one empty line the last
non-empty line is the summary line, which the parser accepts, yet `measure` reports empty
output and never parses it, although two lines were captured. -/
theorem measure_last_non_empty_line_counterexample :
    lastNonEmptyLine [gostr "150.5 20.3 12.8 srv01 ExampleISP", gostr ""] =
      some (gostr "150.5 20.3 12.8 srv01 ExampleISP") ∧
    (bbk.parseQuietOutput decimalOps (gostr "150.5 20.3 12.8 srv01 ExampleISP")).1 =
      some true ∧
    bbk.measure decimalOps (cleanRun [gostr "150.5 20.3 12.8 srv01 ExampleISP", gostr ""])
      (bbk.New "/usr/bin/bbk") = (some false, [bbk.Event.log bbk.LogMsg.noOutput]) ∧
    bbk.measure decimalOps (cleanRun [gostr "150.5 20.3 12.8 srv01 ExampleISP", gostr ""])
      (bbk.New "/usr/bin/bbk") ≠
      bbk.parseQuietOutput decimalOps (gostr "150.5 20.3 12.8 srv01 ExampleISP") := by
  have hm : bbk.measure decimalOps
      (cleanRun [gostr "150.5 20.3 12.8 srv01 ExampleISP", gostr ""])
      (bbk.New "/usr/bin/bbk") = (some false, [bbk.Event.log bbk.LogMsg.noOutput]) := by
    rw [measure_of_clean_run decimalOps _ _
      [gostr "150.5 20.3 12.8 srv01 ExampleISP", gostr ""] rfl]
    rfl
  refine ⟨by decide, ?_, hm, ?_⟩
  · rw [parseQuietOutput_eq, summaryLine_fields]
    simp only [List.getD_cons_zero, List.getD_cons_succ]
    have h0 : decimalOps.ParseFloat (gostr "150.5") = some (301 / 2) := parseDecimal_150_5
    have h1 : decimalOps.ParseFloat (gostr "20.3") = some (203 / 10) := parseDecimal_20_3
    have h2 : decimalOps.ParseFloat (gostr "12.8") = some (64 / 5) := parseDecimal_12_8
    rw [h0, h1, h2]
    simp [validString_gostr]
  · rw [hm]
    exact (parseQuietOutput_ne_noOutput decimalOps _).symm

/-- C7, amended.  After a clean run the parser is handed the last captured line, provided
that line is not empty; `measure` reports empty output exactly when no line was captured
or the last captured line is empty. -/
theorem measure_last_line {F : Type} (ops : Float64Ops F)
    (sys : String → List String → bbk.Cmd) (e : bbk.Exporter) (lines : List GoString)
    (hrun : sys e.binaryPath ["--quiet", "--ssl"] =
      { pipeErr := false, startErr := false, lines := lines, waitErr := false }) :
    (∀ l : GoString, lines.getLast? = some l → l ≠ [] →
      bbk.measure ops sys e = bbk.parseQuietOutput ops l) ∧
    (bbk.measure ops sys e = (some false, [bbk.Event.log bbk.LogMsg.noOutput]) ↔
      lines = [] ∨ lines.getLast? = some []) := by
  have hm := measure_of_clean_run ops sys e lines hrun
  constructor
  · intro l hl hne
    rw [hm, hl]
    simp [hne]
  · rw [hm]
    cases hlast : lines.getLast? with
    | none =>
      have hnil : lines = [] := List.getLast?_eq_none_iff.mp hlast
      simp [hnil]
    | some l =>
      have hne : lines ≠ [] := by
        intro h
        rw [h] at hlast
        simp at hlast
      by_cases hl : l = []
      · simp [hl]
      · simp [hl, hne, parseQuietOutput_ne_noOutput]

/-- C7, amended, example.  Progress output and an empty line before the summary line do
not matter; an empty line after it makes the run fail with empty output. -/
theorem measure_last_line_witness :
    bbk.measure decimalOps
      (cleanRun [gostr "Connecting", gostr "", gostr "150.5 20.3 12.8 srv01 ExampleISP"])
      (bbk.New "/usr/bin/bbk") =
      bbk.parseQuietOutput decimalOps (gostr "150.5 20.3 12.8 srv01 ExampleISP") ∧
    bbk.measure decimalOps (cleanRun [gostr "150.5 20.3 12.8 srv01 ExampleISP", gostr ""])
      (bbk.New "/usr/bin/bbk") = (some false, [bbk.Event.log bbk.LogMsg.noOutput]) :=
  ⟨(measure_last_line decimalOps
      (cleanRun [gostr "Connecting", gostr "", gostr "150.5 20.3 12.8 srv01 ExampleISP"])
      (bbk.New "/usr/bin/bbk") _ rfl).1 _ rfl (by decide),
   (measure_last_line decimalOps
      (cleanRun [gostr "150.5 20.3 12.8 srv01 ExampleISP", gostr ""])
      (bbk.New "/usr/bin/bbk") _ rfl).2.mpr (Or.inr rfl)⟩

/-! ## Describe -/

/-- C10. For each collector `Describe` sends the same five metric identities in the same
order whatever the configuration; it is a function of the collector alone, with no access
to the backend process or the provider.  `up` and `scrape_duration_seconds` have no
labels, the other three have labels (server, isp) for the binary backend and (server_id,
server_name, server_country, user_isp) for the service backend. -/
theorem describe_fixed (b b2 : bbk.Exporter) (x x2 : exporter.Exporter) :
    bbk.Describe b = bbk.Describe b2 ∧
    (bbk.Describe b).map (fun d => (d.fqName, d.variableLabels)) =
      [("bbk_up", []),
       ("bbk_scrape_duration_seconds", []),
       ("bbk_latency_seconds", ["server", "isp"]),
       ("bbk_upload_speed_Bps", ["server", "isp"]),
       ("bbk_download_speed_Bps", ["server", "isp"])] ∧
    exporter.Describe x = exporter.Describe x2 ∧
    (exporter.Describe x).map (fun d => (d.fqName, d.variableLabels)) =
      [("speedtest_up", []),
       ("speedtest_scrape_duration_seconds", []),
       ("speedtest_latency_seconds",
         ["server_id", "server_name", "server_country", "user_isp"]),
       ("speedtest_upload_speed_Bps",
         ["server_id", "server_name", "server_country", "user_isp"]),
       ("speedtest_download_speed_Bps",
         ["server_id", "server_name", "server_country", "user_isp"])] := by
  refine ⟨rfl, ?_, rfl, ?_⟩
  · unfold bbk.Describe
    decide
  · unfold exporter.Describe
    decide

/-! ## Service backend: auxiliary facts -/

theorem exporter_emitted_append {F : Type} (a b : List (exporter.Event F)) :
    exporter.emitted (a ++ b) = exporter.emitted a ++ exporter.emitted b := by
  induction a with
  | nil => rfl
  | cons x t ih => cases x <;> simp [exporter.emitted, ih]

theorem exporter_calls_append {F : Type} (a b : List (exporter.Event F)) :
    exporter.calls (a ++ b) = exporter.calls a ++ exporter.calls b := by
  induction a with
  | nil => rfl
  | cons x t ih => cases x <;> simp [exporter.calls, ih]

theorem selectServer_emitted {σ F : Type} (p : exporter.Provider σ F)
    (e : exporter.Exporter) (s : σ) :
    exporter.emitted (exporter.selectServer p e s).2.1 = [] := by
  unfold exporter.selectServer
  repeat' split
  all_goals simp [exporter.emitted]

theorem pingTest_eq {σ F : Type} (p : exporter.Provider σ F) (user : exporter.User)
    (server : exporter.Server F) (s s2 : σ) (e1 : Bool) (lat : F)
    (hp : p.PingTest s server = (e1, lat, s2)) :
    exporter.pingTest p user server s =
      (some (!e1), { server with Latency := lat },
        [exporter.Event.call (exporter.Call.PingTest server)] ++
          (if e1 then [exporter.Event.log exporter.LogMsg.pingFailed]
           else [exporter.Event.emit ⟨exporter.latency, lat,
              [gostr server.ID, gostr server.Name, gostr server.Country,
               gostr user.Isp]⟩]), s2) := by
  unfold exporter.pingTest
  simp only [hp, mustNewConstMetric_text _ _ _ _ _ _
    (show exporter.latency.variableLabels.length = 4 from rfl)]
  cases e1 <;> simp

theorem downloadTest_eq {σ F : Type} (p : exporter.Provider σ F) (user : exporter.User)
    (server : exporter.Server F) (s s2 : σ) (e2 : Bool) (dl : F)
    (hd : p.DownloadTest s server = (e2, dl, s2)) :
    exporter.downloadTest p user server s =
      (some (!e2), { server with DLSpeed := dl },
        [exporter.Event.call (exporter.Call.DownloadTest server)] ++
          (if e2 then [exporter.Event.log exporter.LogMsg.downloadFailed]
           else [exporter.Event.emit ⟨exporter.download, dl,
              [gostr server.ID, gostr server.Name, gostr server.Country,
               gostr user.Isp]⟩]), s2) := by
  unfold exporter.downloadTest
  simp only [hd, mustNewConstMetric_text _ _ _ _ _ _
    (show exporter.download.variableLabels.length = 4 from rfl)]
  cases e2 <;> simp

theorem uploadTest_eq {σ F : Type} (p : exporter.Provider σ F) (user : exporter.User)
    (server : exporter.Server F) (s s2 : σ) (e3 : Bool) (ul : F)
    (hu : p.UploadTest s server = (e3, ul, s2)) :
    exporter.uploadTest p user server s =
      (some (!e3), { server with ULSpeed := ul },
        [exporter.Event.call (exporter.Call.UploadTest server)] ++
          (if e3 then [exporter.Event.log exporter.LogMsg.uploadFailed]
           else [exporter.Event.emit ⟨exporter.upload, ul,
              [gostr server.ID, gostr server.Name, gostr server.Country,
               gostr user.Isp]⟩]), s2) := by
  unfold exporter.uploadTest
  simp only [hu, mustNewConstMetric_text _ _ _ _ _ _
    (show exporter.upload.variableLabels.length = 4 from rfl)]
  cases e3 <;> simp

theorem speedtest_of_not_selected {σ F : Type} (p : exporter.Provider σ F)
    (e : exporter.Exporter) (s s1 : σ) (tr : List (exporter.Event F))
    (hsel : exporter.selectServer p e s = (none, tr, s1)) :
    exporter.speedtest p e s = (some false, tr, s1) := by
  unfold exporter.speedtest
  rw [hsel]

theorem speedtest_of_selected {σ F : Type} (p : exporter.Provider σ F)
    (e : exporter.Exporter) (s s1 s2 s3 s4 : σ) (user : exporter.User)
    (server : exporter.Server F) (tr : List (exporter.Event F))
    (e1 e2 e3 : Bool) (lat dl ul : F)
    (hsel : exporter.selectServer p e s = (some (user, server), tr, s1))
    (hp : p.PingTest s1 server = (e1, lat, s2))
    (hd : p.DownloadTest s2 { server with Latency := lat } = (e2, dl, s3))
    (hu : p.UploadTest s3 { server with Latency := lat, DLSpeed := dl } = (e3, ul, s4)) :
    exporter.speedtest p e s =
      (some (!e1 && !e2 && !e3),
        tr ++ [exporter.Event.call (exporter.Call.PingTest server)] ++
          (if e1 then [exporter.Event.log exporter.LogMsg.pingFailed]
           else [exporter.Event.emit ⟨exporter.latency, lat,
              [gostr server.ID, gostr server.Name, gostr server.Country,
               gostr user.Isp]⟩]) ++
          [exporter.Event.call (exporter.Call.DownloadTest { server with Latency := lat })] ++
          (if e2 then [exporter.Event.log exporter.LogMsg.downloadFailed]
           else [exporter.Event.emit ⟨exporter.download, dl,
              [gostr server.ID, gostr server.Name, gostr server.Country,
               gostr user.Isp]⟩]) ++
          [exporter.Event.call
            (exporter.Call.UploadTest { server with Latency := lat, DLSpeed := dl })] ++
          (if e3 then [exporter.Event.log exporter.LogMsg.uploadFailed]
           else [exporter.Event.emit ⟨exporter.upload, ul,
              [gostr server.ID, gostr server.Name, gostr server.Country,
               gostr user.Isp]⟩]),
        s4) := by
  unfold exporter.speedtest
  rw [hsel]
  simp only [pingTest_eq p user server s1 s2 e1 lat hp,
    downloadTest_eq p user { server with Latency := lat } s2 s3 e2 dl hd,
    uploadTest_eq p user { server with Latency := lat, DLSpeed := dl } s3 s4 e3 ul hu]
  cases e1 <;> cases e2 <;> cases e3 <;> simp

theorem speedtest_projections_of_selected {σ F : Type} (p : exporter.Provider σ F)
    (e : exporter.Exporter) (s s1 s2 s3 s4 : σ) (user : exporter.User)
    (server : exporter.Server F) (tr : List (exporter.Event F))
    (e1 e2 e3 : Bool) (lat dl ul : F)
    (hsel : exporter.selectServer p e s = (some (user, server), tr, s1))
    (hp : p.PingTest s1 server = (e1, lat, s2))
    (hd : p.DownloadTest s2 { server with Latency := lat } = (e2, dl, s3))
    (hu : p.UploadTest s3 { server with Latency := lat, DLSpeed := dl } = (e3, ul, s4)) :
    exporter.calls (exporter.speedtest p e s).2.1 =
      exporter.calls tr ++
        [exporter.Call.PingTest server,
         exporter.Call.DownloadTest { server with Latency := lat },
         exporter.Call.UploadTest { server with Latency := lat, DLSpeed := dl }] ∧
    exporter.emitted (exporter.speedtest p e s).2.1 =
      (if e1 then [] else
        [⟨exporter.latency, lat,
          [gostr server.ID, gostr server.Name, gostr server.Country, gostr user.Isp]⟩]) ++
      (if e2 then [] else
        [⟨exporter.download, dl,
          [gostr server.ID, gostr server.Name, gostr server.Country, gostr user.Isp]⟩]) ++
      (if e3 then [] else
        [⟨exporter.upload, ul,
          [gostr server.ID, gostr server.Name, gostr server.Country, gostr user.Isp]⟩]) := by
  have htr : exporter.emitted tr = [] := by
    have h := selectServer_emitted p e s
    rw [hsel] at h
    exact h
  rw [speedtest_of_selected p e s s1 s2 s3 s4 user server tr e1 e2 e3 lat dl ul hsel hp hd hu]
  constructor
  · cases e1 <;> cases e2 <;> cases e3 <;>
      simp [exporter_calls_append, exporter.calls]
  · cases e1 <;> cases e2 <;> cases e3 <;>
      simp [exporter_emitted_append, exporter.emitted, htr]

theorem speedtest_emitted_facts {σ F : Type} (p : exporter.Provider σ F)
    (e : exporter.Exporter) (s : σ) :
    (exporter.speedtest p e s).1 ≠ none ∧
    (∀ m ∈ exporter.emitted (exporter.speedtest p e s).2.1,
      m.desc = exporter.latency ∨ m.desc = exporter.download ∨ m.desc = exporter.upload) ∧
    (exporter.emitted (exporter.speedtest p e s).2.1).length ≤ 3 := by
  rcases hsel : exporter.selectServer p e s with ⟨sel, tr, s1⟩
  cases sel with
  | none =>
    have htr : exporter.emitted tr = [] := by
      have h := selectServer_emitted p e s
      rw [hsel] at h
      exact h
    rw [speedtest_of_not_selected p e s s1 tr hsel]
    simp [htr]
  | some us =>
    obtain ⟨user, server⟩ := us
    rcases hp : p.PingTest s1 server with ⟨e1, lat, s2⟩
    rcases hd : p.DownloadTest s2 { server with Latency := lat } with ⟨e2, dl, s3⟩
    rcases hu : p.UploadTest s3 { server with Latency := lat, DLSpeed := dl } with
      ⟨e3, ul, s4⟩
    refine ⟨?_, ?_⟩
    · rw [speedtest_of_selected p e s s1 s2 s3 s4 user server tr e1 e2 e3 lat dl ul
        hsel hp hd hu]
      simp
    · rw [(speedtest_projections_of_selected p e s s1 s2 s3 s4 user server tr e1 e2 e3
        lat dl ul hsel hp hd hu).2]
      cases e1 <;> cases e2 <;> cases e3 <;> simp

theorem speedtest_labels_of_selected {σ F : Type} (p : exporter.Provider σ F)
    (e : exporter.Exporter) (s s1 : σ) (user : exporter.User)
    (server : exporter.Server F) (tr : List (exporter.Event F))
    (hsel : exporter.selectServer p e s = (some (user, server), tr, s1)) :
    ∀ m ∈ exporter.emitted (exporter.speedtest p e s).2.1,
      m.labelValues =
        [gostr server.ID, gostr server.Name, gostr server.Country, gostr user.Isp] := by
  rcases hp : p.PingTest s1 server with ⟨e1, lat, s2⟩
  rcases hd : p.DownloadTest s2 { server with Latency := lat } with ⟨e2, dl, s3⟩
  rcases hu : p.UploadTest s3 { server with Latency := lat, DLSpeed := dl } with
    ⟨e3, ul, s4⟩
  rw [(speedtest_projections_of_selected p e s s1 s2 s3 s4 user server tr e1 e2 e3
    lat dl ul hsel hp hd hu).2]
  cases e1 <;> cases e2 <;> cases e3 <;> simp

theorem exporter_collect_of_returned {σ F : Type} (ops : Float64Ops F)
    (p : exporter.Provider σ F) (e : exporter.Exporter) (s s1 : σ) (elapsed : F)
    (ok : Bool) (tr : List (exporter.Event F))
    (h : exporter.speedtest p e s = (some ok, tr, s1)) :
    exporter.Collect ops p e s elapsed =
      (some (),
        tr ++ [exporter.Event.emit ⟨exporter.up, if ok then ops.lit 1 else ops.lit 0, []⟩,
               exporter.Event.emit ⟨exporter.scrapeDurationSeconds, elapsed, []⟩], s1) := by
  unfold exporter.Collect
  rw [h]
  cases ok <;>
    simp [mustNewConstMetric_nil _ _ (show exporter.up.variableLabels.length = 0 from rfl),
      mustNewConstMetric_nil _ _
        (show exporter.scrapeDurationSeconds.variableLabels.length = 0 from rfl)]

theorem exporter_collect_of_failure {σ F : Type} (ops : Float64Ops F)
    (p : exporter.Provider σ F) (e : exporter.Exporter) (s s1 : σ) (elapsed : F)
    (tr : List (exporter.Event F)) (htr : exporter.emitted tr = [])
    (h : exporter.speedtest p e s = (some false, tr, s1)) :
    (exporter.Collect ops p e s elapsed).1 = some () ∧
    exporter.emitted (exporter.Collect ops p e s elapsed).2.1 =
      [⟨exporter.up, ops.lit 0, []⟩, ⟨exporter.scrapeDurationSeconds, elapsed, []⟩] := by
  rw [exporter_collect_of_returned ops p e s s1 elapsed false tr h]
  refine ⟨rfl, ?_⟩
  simp [exporter_emitted_append, htr, exporter.emitted]

/-! ## Service backend: the runner -/

/-- C5. Once a server is selected, the latency, download and upload sub-tests are all
called, in this order, whatever the outcome of each; exactly the sub-tests that succeed
send a sample (the others log a failure), and the result is true iff all three succeed. -/
theorem speedtest_subtests_independent {σ F : Type} (p : exporter.Provider σ F)
    (e : exporter.Exporter) (s s1 s2 s3 s4 : σ) (user : exporter.User)
    (server : exporter.Server F) (tr : List (exporter.Event F))
    (e1 e2 e3 : Bool) (lat dl ul : F)
    (hsel : exporter.selectServer p e s = (some (user, server), tr, s1))
    (hp : p.PingTest s1 server = (e1, lat, s2))
    (hd : p.DownloadTest s2 { server with Latency := lat } = (e2, dl, s3))
    (hu : p.UploadTest s3 { server with Latency := lat, DLSpeed := dl } = (e3, ul, s4)) :
    exporter.speedtest p e s =
      (some (!e1 && !e2 && !e3),
        tr ++ [exporter.Event.call (exporter.Call.PingTest server)] ++
          (if e1 then [exporter.Event.log exporter.LogMsg.pingFailed]
           else [exporter.Event.emit ⟨exporter.latency, lat,
              [gostr server.ID, gostr server.Name, gostr server.Country,
               gostr user.Isp]⟩]) ++
          [exporter.Event.call (exporter.Call.DownloadTest { server with Latency := lat })] ++
          (if e2 then [exporter.Event.log exporter.LogMsg.downloadFailed]
           else [exporter.Event.emit ⟨exporter.download, dl,
              [gostr server.ID, gostr server.Name, gostr server.Country,
               gostr user.Isp]⟩]) ++
          [exporter.Event.call
            (exporter.Call.UploadTest { server with Latency := lat, DLSpeed := dl })] ++
          (if e3 then [exporter.Event.log exporter.LogMsg.uploadFailed]
           else [exporter.Event.emit ⟨exporter.upload, ul,
              [gostr server.ID, gostr server.Name, gostr server.Country,
               gostr user.Isp]⟩]),
        s4) ∧
    exporter.calls (exporter.speedtest p e s).2.1 =
      exporter.calls tr ++
        [exporter.Call.PingTest server,
         exporter.Call.DownloadTest { server with Latency := lat },
         exporter.Call.UploadTest { server with Latency := lat, DLSpeed := dl }] ∧
    exporter.emitted (exporter.speedtest p e s).2.1 =
      (if e1 then [] else
        [⟨exporter.latency, lat,
          [gostr server.ID, gostr server.Name, gostr server.Country, gostr user.Isp]⟩]) ++
      (if e2 then [] else
        [⟨exporter.download, dl,
          [gostr server.ID, gostr server.Name, gostr server.Country, gostr user.Isp]⟩]) ++
      (if e3 then [] else
        [⟨exporter.upload, ul,
          [gostr server.ID, gostr server.Name, gostr server.Country, gostr user.Isp]⟩]) :=
  ⟨speedtest_of_selected p e s s1 s2 s3 s4 user server tr e1 e2 e3 lat dl ul hsel hp hd hu,
   speedtest_projections_of_selected p e s s1 s2 s3 s4 user server tr e1 e2 e3 lat dl ul
    hsel hp hd hu⟩

/-- C5, Scenario D.  Configured server 5001 with fallback, the provider answers with server
5002; the ping test fails, download and upload succeed: the cycle sends the download and
upload samples, no latency sample, and `up = 0`. -/
theorem speedtest_subtests_independent_witness :
    (exporter.speedtest
      (scriptedProvider (some ⟨"ExampleISP"⟩) (some [server7000, server5002])
        (some [server5002]) (true, 0) (false, 18812500) (false, 2537500))
      (exporter.New 5001 true) ()).1 = some false ∧
    exporter.emitted (exporter.Collect decimalOps
      (scriptedProvider (some ⟨"ExampleISP"⟩) (some [server7000, server5002])
        (some [server5002]) (true, 0) (false, 18812500) (false, 2537500))
      (exporter.New 5001 true) () 42).2.1 =
      [⟨exporter.download, 18812500,
          [gostr "5002", gostr "Stockholm", gostr "Sweden", gostr "ExampleISP"]⟩,
       ⟨exporter.upload, 2537500,
          [gostr "5002", gostr "Stockholm", gostr "Sweden", gostr "ExampleISP"]⟩,
       ⟨exporter.up, 0, []⟩,
       ⟨exporter.scrapeDurationSeconds, 42, []⟩] := by
  have h := speedtest_subtests_independent
    (scriptedProvider (some ⟨"ExampleISP"⟩) (some [server7000, server5002])
      (some [server5002]) (true, 0) (false, 18812500) (false, 2537500))
    (exporter.New 5001 true) () () () () () ⟨"ExampleISP"⟩ server5002
    [exporter.Event.call exporter.Call.FetchUserInfo,
     exporter.Event.call exporter.Call.FetchServers,
     exporter.Event.call (exporter.Call.FindServer [5001])]
    true false false 0 18812500 2537500 rfl rfl rfl rfl
  constructor
  · rw [h.1]
    rfl
  · rw [exporter_collect_of_returned decimalOps _ _ () () 42 false _ h.1]
    simp [exporter_emitted_append, exporter.emitted, decimalOps, server5002]

/-- C6. With a configured server ID other than -1, when the lookup answers a non-empty
list whose first server's ID is not the decimal string of the configured ID: without the
fallback flag `speedtest` returns false right after the lookup, with no sub-test called
and no sample sent; with the fallback flag the answered server is selected, the three
sub-tests are called on it, and every sample carries its ID, name and country. -/
theorem speedtest_server_mismatch {σ F : Type} (p : exporter.Provider σ F)
    (e : exporter.Exporter) (s s1 s2 s3 : σ) (user : exporter.User)
    (servers : List (exporter.Server F)) (found0 : exporter.Server F)
    (rest : List (exporter.Server F))
    (hid : e.serverID ≠ -1)
    (hu : p.FetchUserInfo s = (some user, s1))
    (hs : p.FetchServers s1 = (some servers, s2))
    (hne : servers ≠ [])
    (hf : p.FindServer s2 servers [e.serverID] = (some (found0 :: rest), s3))
    (hneq : found0.ID ≠ Itoa e.serverID) :
    (e.serverFallback = false →
      exporter.speedtest p e s =
        (some false,
          [exporter.Event.call exporter.Call.FetchUserInfo,
           exporter.Event.call exporter.Call.FetchServers,
           exporter.Event.call (exporter.Call.FindServer [e.serverID]),
           exporter.Event.log (exporter.LogMsg.serverMismatch e.serverID)], s3) ∧
      exporter.calls (exporter.speedtest p e s).2.1 =
        [exporter.Call.FetchUserInfo, exporter.Call.FetchServers,
         exporter.Call.FindServer [e.serverID]] ∧
      exporter.emitted (exporter.speedtest p e s).2.1 = []) ∧
    (e.serverFallback = true →
      exporter.selectServer p e s =
        (some (user, found0),
          [exporter.Event.call exporter.Call.FetchUserInfo,
           exporter.Event.call exporter.Call.FetchServers,
           exporter.Event.call (exporter.Call.FindServer [e.serverID])], s3) ∧
      exporter.calls (exporter.speedtest p e s).2.1 =
        [exporter.Call.FetchUserInfo, exporter.Call.FetchServers,
         exporter.Call.FindServer [e.serverID],
         exporter.Call.PingTest found0,
         exporter.Call.DownloadTest { found0 with Latency := (p.PingTest s3 found0).2.1 },
         exporter.Call.UploadTest
          { found0 with
            Latency := (p.PingTest s3 found0).2.1,
            DLSpeed := (p.DownloadTest (p.PingTest s3 found0).2.2
              { found0 with Latency := (p.PingTest s3 found0).2.1 }).2.1 }] ∧
      ∀ m ∈ exporter.emitted (exporter.speedtest p e s).2.1,
        m.labelValues =
          [gostr found0.ID, gostr found0.Name, gostr found0.Country, gostr user.Isp]) := by
  obtain ⟨servers0, srest, rfl⟩ := List.exists_cons_of_ne_nil hne
  constructor
  · intro hfb
    have hsel : exporter.selectServer p e s =
        (none,
          [exporter.Event.call exporter.Call.FetchUserInfo,
           exporter.Event.call exporter.Call.FetchServers,
           exporter.Event.call (exporter.Call.FindServer [e.serverID]),
           exporter.Event.log (exporter.LogMsg.serverMismatch e.serverID)], s3) := by
      unfold exporter.selectServer
      simp [hu, hs, hid, hf, hneq, hfb]
    rw [speedtest_of_not_selected p e s s3 _ hsel]
    exact ⟨rfl, rfl, rfl⟩
  · intro hfb
    have hsel : exporter.selectServer p e s =
        (some (user, found0),
          [exporter.Event.call exporter.Call.FetchUserInfo,
           exporter.Event.call exporter.Call.FetchServers,
           exporter.Event.call (exporter.Call.FindServer [e.serverID])], s3) := by
      unfold exporter.selectServer
      simp [hu, hs, hid, hf, hfb]
    refine ⟨hsel, ?_, speedtest_labels_of_selected p e s s3 user found0 _ hsel⟩
    rw [(speedtest_projections_of_selected p e s s3 _ _ _ user found0 _ _ _ _ _ _ _
      hsel rfl rfl rfl).1]
    rfl

/-- C6, Scenario C.  Configured server 5001 without fallback, the provider answers with
server 5002: the cycle fails after the lookup, no sub-test is called and only `up = 0` and
the duration are sent. -/
theorem speedtest_server_mismatch_witness :
    exporter.speedtest
      (scriptedProvider (some ⟨"ExampleISP"⟩) (some [server7000, server5002])
        (some [server5002]) (false, 1 / 100) (false, 18812500) (false, 2537500))
      (exporter.New 5001 false) () =
      (some false,
        [exporter.Event.call exporter.Call.FetchUserInfo,
         exporter.Event.call exporter.Call.FetchServers,
         exporter.Event.call (exporter.Call.FindServer [5001]),
         exporter.Event.log (exporter.LogMsg.serverMismatch 5001)], ()) :=
  ((speedtest_server_mismatch
    (scriptedProvider (some ⟨"ExampleISP"⟩) (some [server7000, server5002])
      (some [server5002]) (false, 1 / 100) (false, 18812500) (false, 2537500))
    (exporter.New 5001 false) () () () () ⟨"ExampleISP"⟩ [server7000, server5002]
    server5002 [] (by decide) rfl rfl (by simp) rfl (by decide)).1 rfl).1

/-- C8. If fetching the user information fails, or fetching the server list fails, or the
server list is empty, `speedtest` returns false with no lookup, no sub-test and no sample,
and the cycle sends only `up = 0` and the duration; after a user-information failure the
server list is not fetched. -/
theorem speedtest_early_failure {σ F : Type} (ops : Float64Ops F)
    (p : exporter.Provider σ F) (e : exporter.Exporter) (s : σ) (elapsed : F) :
    (∀ s1 : σ, p.FetchUserInfo s = (none, s1) →
      exporter.speedtest p e s =
        (some false,
          [exporter.Event.call exporter.Call.FetchUserInfo,
           exporter.Event.log exporter.LogMsg.userInfoFailed], s1) ∧
      (exporter.Collect ops p e s elapsed).1 = some () ∧
      exporter.emitted (exporter.Collect ops p e s elapsed).2.1 =
        [⟨exporter.up, ops.lit 0, []⟩, ⟨exporter.scrapeDurationSeconds, elapsed, []⟩]) ∧
    (∀ (user : exporter.User) (s1 s2 : σ), p.FetchUserInfo s = (some user, s1) →
      p.FetchServers s1 = (none, s2) →
      exporter.speedtest p e s =
        (some false,
          [exporter.Event.call exporter.Call.FetchUserInfo,
           exporter.Event.call exporter.Call.FetchServers,
           exporter.Event.log exporter.LogMsg.serverListFailed], s2) ∧
      (exporter.Collect ops p e s elapsed).1 = some () ∧
      exporter.emitted (exporter.Collect ops p e s elapsed).2.1 =
        [⟨exporter.up, ops.lit 0, []⟩, ⟨exporter.scrapeDurationSeconds, elapsed, []⟩]) ∧
    (∀ (user : exporter.User) (s1 s2 : σ), p.FetchUserInfo s = (some user, s1) →
      p.FetchServers s1 = (some [], s2) →
      exporter.speedtest p e s =
        (some false,
          [exporter.Event.call exporter.Call.FetchUserInfo,
           exporter.Event.call exporter.Call.FetchServers,
           exporter.Event.log exporter.LogMsg.noServers], s2) ∧
      (exporter.Collect ops p e s elapsed).1 = some () ∧
      exporter.emitted (exporter.Collect ops p e s elapsed).2.1 =
        [⟨exporter.up, ops.lit 0, []⟩, ⟨exporter.scrapeDurationSeconds, elapsed, []⟩]) := by
  refine ⟨?_, ?_, ?_⟩
  · intro s1 hu
    have hsel : exporter.selectServer p e s =
        (none, [exporter.Event.call exporter.Call.FetchUserInfo,
          exporter.Event.log exporter.LogMsg.userInfoFailed], s1) := by
      unfold exporter.selectServer
      simp [hu]
    have h := speedtest_of_not_selected p e s s1 _ hsel
    exact ⟨h, exporter_collect_of_failure ops p e s s1 elapsed _ (by rfl) h⟩
  · intro user s1 s2 hu hs
    have hsel : exporter.selectServer p e s =
        (none, [exporter.Event.call exporter.Call.FetchUserInfo,
          exporter.Event.call exporter.Call.FetchServers,
          exporter.Event.log exporter.LogMsg.serverListFailed], s2) := by
      unfold exporter.selectServer
      simp [hu, hs]
    have h := speedtest_of_not_selected p e s s2 _ hsel
    exact ⟨h, exporter_collect_of_failure ops p e s s2 elapsed _ (by rfl) h⟩
  · intro user s1 s2 hu hs
    have hsel : exporter.selectServer p e s =
        (none, [exporter.Event.call exporter.Call.FetchUserInfo,
          exporter.Event.call exporter.Call.FetchServers,
          exporter.Event.log exporter.LogMsg.noServers], s2) := by
      unfold exporter.selectServer
      simp [hu, hs]
    have h := speedtest_of_not_selected p e s s2 _ hsel
    exact ⟨h, exporter_collect_of_failure ops p e s s2 elapsed _ (by rfl) h⟩

/-- C8, examples: one provider for each of the three failures. -/
theorem speedtest_early_failure_witness :
    exporter.emitted (exporter.Collect decimalOps
      (scriptedProvider none (some [server5002]) (some [server5002])
        (false, 1 / 100) (false, 18812500) (false, 2537500))
      (exporter.New (-1) false) () 3).2.1 =
      [⟨exporter.up, 0, []⟩, ⟨exporter.scrapeDurationSeconds, 3, []⟩] ∧
    exporter.emitted (exporter.Collect decimalOps
      (scriptedProvider (some ⟨"ExampleISP"⟩) none (some [server5002])
        (false, 1 / 100) (false, 18812500) (false, 2537500))
      (exporter.New (-1) false) () 3).2.1 =
      [⟨exporter.up, 0, []⟩, ⟨exporter.scrapeDurationSeconds, 3, []⟩] ∧
    exporter.emitted (exporter.Collect decimalOps
      (scriptedProvider (some ⟨"ExampleISP"⟩) (some []) (some [server5002])
        (false, 1 / 100) (false, 18812500) (false, 2537500))
      (exporter.New 5002 true) () 3).2.1 =
      [⟨exporter.up, 0, []⟩, ⟨exporter.scrapeDurationSeconds, 3, []⟩] := by
  have h1 := ((speedtest_early_failure decimalOps
    (scriptedProvider none (some [server5002]) (some [server5002])
      (false, 1 / 100) (false, 18812500) (false, 2537500))
    (exporter.New (-1) false) () 3).1 () rfl).2.2
  have h2 := ((speedtest_early_failure decimalOps
    (scriptedProvider (some ⟨"ExampleISP"⟩) none (some [server5002])
      (false, 1 / 100) (false, 18812500) (false, 2537500))
    (exporter.New (-1) false) () 3).2.1 ⟨"ExampleISP"⟩ () () rfl rfl).2.2
  have h3 := ((speedtest_early_failure decimalOps
    (scriptedProvider (some ⟨"ExampleISP"⟩) (some []) (some [server5002])
      (false, 1 / 100) (false, 18812500) (false, 2537500))
    (exporter.New 5002 true) () 3).2.2 ⟨"ExampleISP"⟩ () () rfl rfl).2.2
  refine ⟨?_, ?_, ?_⟩
  · simpa [decimalOps] using h1
  · simpa [decimalOps] using h2
  · simpa [decimalOps] using h3

/-- C9. With the configured server ID -1 and a non-empty server list, the first server of
the list is selected whatever the fallback flag, no lookup is made, and the three
sub-tests are called on that server; with any other configured ID the lookup for that ID
is the third call to the provider. -/
theorem speedtest_nearest_server {σ F : Type} (p : exporter.Provider σ F)
    (e : exporter.Exporter) (s s1 s2 : σ) (user : exporter.User)
    (first : exporter.Server F) (rest : List (exporter.Server F))
    (hid : e.serverID = -1)
    (hu : p.FetchUserInfo s = (some user, s1))
    (hs : p.FetchServers s1 = (some (first :: rest), s2)) :
    exporter.selectServer p e s =
      (some (user, first),
        [exporter.Event.call exporter.Call.FetchUserInfo,
         exporter.Event.call exporter.Call.FetchServers], s2) ∧
    exporter.calls (exporter.speedtest p e s).2.1 =
      [exporter.Call.FetchUserInfo, exporter.Call.FetchServers,
       exporter.Call.PingTest first,
       exporter.Call.DownloadTest { first with Latency := (p.PingTest s2 first).2.1 },
       exporter.Call.UploadTest
        { first with
          Latency := (p.PingTest s2 first).2.1,
          DLSpeed := (p.DownloadTest (p.PingTest s2 first).2.2
            { first with Latency := (p.PingTest s2 first).2.1 }).2.1 }] ∧
    (∀ b : Bool, exporter.speedtest p { serverID := -1, serverFallback := b } s =
      exporter.speedtest p e s) ∧
    (∀ e2 : exporter.Exporter, e2.serverID ≠ -1 →
      (exporter.calls (exporter.speedtest p e2 s).2.1).take 3 =
        [exporter.Call.FetchUserInfo, exporter.Call.FetchServers,
         exporter.Call.FindServer [e2.serverID]]) := by
  have hselAny : ∀ x : exporter.Exporter, x.serverID = -1 →
      exporter.selectServer p x s =
        (some (user, first),
          [exporter.Event.call exporter.Call.FetchUserInfo,
           exporter.Event.call exporter.Call.FetchServers], s2) := by
    intro x hx
    unfold exporter.selectServer
    simp [hu, hs, hx]
  have hsel := hselAny e hid
  refine ⟨hsel, ?_, ?_, ?_⟩
  · rw [(speedtest_projections_of_selected p e s s2 _ _ _ user first _ _ _ _ _ _ _
      hsel rfl rfl rfl).1]
    rfl
  · intro b
    have hselb := hselAny { serverID := -1, serverFallback := b } rfl
    unfold exporter.speedtest
    rw [hsel, hselb]
  · intro e2 hid2
    rcases hf : p.FindServer s2 (first :: rest) [e2.serverID] with ⟨found, s3⟩
    cases found with
    | none =>
      have hsel2 : exporter.selectServer p e2 s =
          (none, [exporter.Event.call exporter.Call.FetchUserInfo,
            exporter.Event.call exporter.Call.FetchServers,
            exporter.Event.call (exporter.Call.FindServer [e2.serverID]),
            exporter.Event.log exporter.LogMsg.findServerFailed], s3) := by
        unfold exporter.selectServer
        simp [hu, hs, hid2, hf]
      rw [speedtest_of_not_selected p e2 s s3 _ hsel2]
      rfl
    | some found =>
      cases found with
      | nil =>
        have hsel2 : exporter.selectServer p e2 s =
            (none, [exporter.Event.call exporter.Call.FetchUserInfo,
              exporter.Event.call exporter.Call.FetchServers,
              exporter.Event.call (exporter.Call.FindServer [e2.serverID]),
              exporter.Event.log (exporter.LogMsg.serverNotFound e2.serverID)], s3) := by
          unfold exporter.selectServer
          simp [hu, hs, hid2, hf]
        rw [speedtest_of_not_selected p e2 s s3 _ hsel2]
        rfl
      | cons found0 frest =>
        by_cases hmis : found0.ID ≠ Itoa e2.serverID ∧ ¬ e2.serverFallback = true
        · have hsel2 : exporter.selectServer p e2 s =
              (none, [exporter.Event.call exporter.Call.FetchUserInfo,
                exporter.Event.call exporter.Call.FetchServers,
                exporter.Event.call (exporter.Call.FindServer [e2.serverID]),
                exporter.Event.log (exporter.LogMsg.serverMismatch e2.serverID)], s3) := by
            unfold exporter.selectServer
            simp only [hu, hs, hid2, hf, if_false, if_pos hmis]
          rw [speedtest_of_not_selected p e2 s s3 _ hsel2]
          rfl
        · have hsel2 : exporter.selectServer p e2 s =
              (some (user, found0),
                [exporter.Event.call exporter.Call.FetchUserInfo,
                 exporter.Event.call exporter.Call.FetchServers,
                 exporter.Event.call (exporter.Call.FindServer [e2.serverID])], s3) := by
            unfold exporter.selectServer
            simp only [hu, hs, hid2, hf, if_false, if_neg hmis]
          rw [(speedtest_projections_of_selected p e2 s s3 _ _ _ user found0 _ _ _ _ _ _ _
            hsel2 rfl rfl rfl).1]
          rfl

/-- C9, example.  With ID -1 the nearest server 7000 is measured and no lookup is made;
with ID -2 the lookup is made. -/
theorem speedtest_nearest_server_witness :
    exporter.calls (exporter.speedtest
      (scriptedProvider (some ⟨"ExampleISP"⟩) (some [server7000, server5002])
        (some [server5002]) (false, 1 / 100) (false, 18812500) (false, 2537500))
      (exporter.New (-1) true) ()).2.1 =
      [exporter.Call.FetchUserInfo, exporter.Call.FetchServers,
       exporter.Call.PingTest server7000,
       exporter.Call.DownloadTest { server7000 with Latency := 1 / 100 },
       exporter.Call.UploadTest
        { server7000 with Latency := 1 / 100, DLSpeed := 18812500 }] ∧
    (exporter.calls (exporter.speedtest
      (scriptedProvider (some ⟨"ExampleISP"⟩) (some [server7000, server5002])
        (some [server5002]) (false, 1 / 100) (false, 18812500) (false, 2537500))
      (exporter.New (-2) true) ()).2.1).take 3 =
      [exporter.Call.FetchUserInfo, exporter.Call.FetchServers,
       exporter.Call.FindServer [-2]] :=
  ⟨(speedtest_nearest_server
      (scriptedProvider (some ⟨"ExampleISP"⟩) (some [server7000, server5002])
        (some [server5002]) (false, 1 / 100) (false, 18812500) (false, 2537500))
      (exporter.New (-1) true) () () () ⟨"ExampleISP"⟩ server7000 [server5002]
      rfl rfl rfl).2.1,
   (speedtest_nearest_server
      (scriptedProvider (some ⟨"ExampleISP"⟩) (some [server7000, server5002])
        (some [server5002]) (false, 1 / 100) (false, 18812500) (false, 2537500))
      (exporter.New (-1) true) () () () ⟨"ExampleISP"⟩ server7000 [server5002]
      rfl rfl rfl).2.2.2 (exporter.New (-2) true) (by decide)⟩

/-! ## Collect -/

theorem filter_desc_tail {F : Type} (ms : List (prometheus.Metric F))
    (a b : prometheus.Metric F) (d : prometheus.Desc) (hms : ∀ m ∈ ms, m.desc ≠ d) :
    (ms ++ [a, b]).filter (fun m => decide (m.desc = d)) =
      [a, b].filter (fun m => decide (m.desc = d)) := by
  have h : ms.filter (fun m => decide (m.desc = d)) = [] := by
    rw [List.filter_eq_nil_iff]
    intro m hm
    simpa using hms m hm
  rw [List.filter_append, h, List.nil_append]

theorem measure_emitted_facts {F : Type} (ops : Float64Ops F)
    (sys : String → List String → bbk.Cmd) (e : bbk.Exporter) :
    (∀ m ∈ bbk.emitted (bbk.measure ops sys e).2,
      m.desc = bbk.download ∨ m.desc = bbk.upload ∨ m.desc = bbk.latency) ∧
    (bbk.emitted (bbk.measure ops sys e).2).length ≤ 3 := by
  unfold bbk.measure
  simp only
  split
  · simp [bbk.emitted]
  · split
    · simp [bbk.emitted]
    · split
      · simp [bbk.emitted]
      · split
        · simp [bbk.emitted]
        · exact ⟨parseQuietOutput_emitted_desc ops _, parseQuietOutput_emitted_length ops _⟩

theorem parseQuietOutput_panic_label {F : Type} (ops : Float64Ops F) (line : GoString) :
    (bbk.parseQuietOutput ops line).1 = none →
      ¬ (ValidString ((Fields line).getD 3 []) = true ∧
        ValidString ((Fields line).getD 4 []) = true) := by
  rw [parseQuietOutput_eq]
  intro h hv
  revert h
  repeat' split
  all_goals simp [hv]

theorem measure_panic_label {F : Type} (ops : Float64Ops F)
    (sys : String → List String → bbk.Cmd) (e : bbk.Exporter) :
    (bbk.measure ops sys e).1 = none →
      ¬ (ValidString ((Fields (bbk.scanLoop
            (sys e.binaryPath ["--quiet", "--ssl"]).lines)).getD 3 []) = true ∧
        ValidString ((Fields (bbk.scanLoop
            (sys e.binaryPath ["--quiet", "--ssl"]).lines)).getD 4 []) = true) := by
  unfold bbk.measure
  simp only
  repeat' split
  all_goals first | exact parseQuietOutput_panic_label ops _ | simp

theorem parseQuietOutput_scenarioA :
    bbk.parseQuietOutput decimalOps (gostr "150.5 20.3 12.8 srv01 ExampleISP") =
      (some true,
        [bbk.Event.emit ⟨bbk.download, 18812500, [gostr "srv01", gostr "ExampleISP"]⟩,
         bbk.Event.emit ⟨bbk.upload, 2537500, [gostr "srv01", gostr "ExampleISP"]⟩,
         bbk.Event.emit ⟨bbk.latency, 128 / 10000, [gostr "srv01", gostr "ExampleISP"]⟩]) := by
  rw [parseQuietOutput_eq, summaryLine_fields]
  simp only [List.getD_cons_zero, List.getD_cons_succ]
  have h0 : decimalOps.ParseFloat (gostr "150.5") = some (301 / 2) := parseDecimal_150_5
  have h1 : decimalOps.ParseFloat (gostr "20.3") = some (203 / 10) := parseDecimal_20_3
  have h2 : decimalOps.ParseFloat (gostr "12.8") = some (64 / 5) := parseDecimal_12_8
  rw [h0, h1, h2]
  simp [validString_gostr, decimalOps]
  norm_num

theorem measure_badLabelLine :
    bbk.measure decimalOps (cleanRun [badLabelLine]) (bbk.New "/usr/bin/bbk") =
      (none, []) := by
  rw [measure_of_clean_run decimalOps _ _ [badLabelLine] rfl]
  have hne : ([badLabelLine].getLast?.getD []) ≠ [] := by decide
  rw [if_neg hne]
  have h0 : decimalOps.ParseFloat ((Fields badLabelLine).getD 0 []) = some 2 := by
    rw [badLabelLine_fields]
    exact parseDecimal_2
  have h1 : decimalOps.ParseFloat ((Fields badLabelLine).getD 1 []) = some 4 := by
    rw [badLabelLine_fields]
    exact parseDecimal_4
  have h2 : decimalOps.ParseFloat ((Fields badLabelLine).getD 2 []) = some 500 := by
    rw [badLabelLine_fields]
    exact parseDecimal_500
  exact parseQuietOutput_panics decimalOps badLabelLine 2 4 500 (by decide) h0 h1 h2
    (by decide)

/-- C4 as stated fails for the binary backend.  When the process exits cleanly and its
last line is the bytes of `2 4 500 srv`, the byte `0xff` and the bytes of
`01 ExampleISP`, the runner panics while building the first metric and `Collect`, which
has no `recover`, sends nothing: no `up` sample and no `scrape_duration_seconds`
sample. -/
theorem collect_invalid_label_counterexample :
    bbk.Collect decimalOps (cleanRun [badLabelLine]) (bbk.New "/usr/bin/bbk") 7 =
      (none, []) ∧
    (bbk.emitted (bbk.Collect decimalOps (cleanRun [badLabelLine])
        (bbk.New "/usr/bin/bbk") 7).2).filter (fun m => decide (m.desc = bbk.up)) = [] ∧
    (bbk.emitted (bbk.Collect decimalOps (cleanRun [badLabelLine])
        (bbk.New "/usr/bin/bbk") 7).2).filter
      (fun m => decide (m.desc = bbk.scrapeDurationSeconds)) = [] := by
  have h := bbk_collect_of_panicked decimalOps (cleanRun [badLabelLine])
    (bbk.New "/usr/bin/bbk") 7 [] measure_badLabelLine
  rw [h]
  exact ⟨rfl, rfl, rfl⟩

/-- C4, amended.  For the binary backend, whenever the runner returns, and for the service
backend always (its runner always returns), the trace of one `Collect` is the trace of the
runner followed by one `up` sample and one `scrape_duration_seconds` sample; these are the
only samples of the cycle with these identities, `up` is 1 if the runner returned true and
0 otherwise, and the runner sends at most three samples.  The runner of the binary backend
returns whenever fields 4 and 5 of the result line are valid UTF-8. -/
theorem collect_up_and_duration {σ F : Type} (ops : Float64Ops F)
    (sys : String → List String → bbk.Cmd) (b : bbk.Exporter)
    (p : exporter.Provider σ F) (x : exporter.Exporter) (s : σ) (elapsed : F) :
    (((bbk.measure ops sys b).1 ≠ none →
        bbk.Collect ops sys b elapsed =
          (some (),
            (bbk.measure ops sys b).2 ++
              [bbk.Event.emit
                ⟨bbk.up,
                 if (bbk.measure ops sys b).1 = some true then ops.lit 1 else ops.lit 0,
                 []⟩,
               bbk.Event.emit ⟨bbk.scrapeDurationSeconds, elapsed, []⟩]) ∧
        (bbk.emitted (bbk.Collect ops sys b elapsed).2).filter
            (fun m => decide (m.desc = bbk.up)) =
          [⟨bbk.up,
            if (bbk.measure ops sys b).1 = some true then ops.lit 1 else ops.lit 0, []⟩] ∧
        (bbk.emitted (bbk.Collect ops sys b elapsed).2).filter
            (fun m => decide (m.desc = bbk.scrapeDurationSeconds)) =
          [⟨bbk.scrapeDurationSeconds, elapsed, []⟩]) ∧
      (bbk.emitted (bbk.measure ops sys b).2).length ≤ 3 ∧
      (ValidString ((Fields (bbk.scanLoop
            (sys b.binaryPath ["--quiet", "--ssl"]).lines)).getD 3 []) = true ∧
          ValidString ((Fields (bbk.scanLoop
            (sys b.binaryPath ["--quiet", "--ssl"]).lines)).getD 4 []) = true →
        (bbk.measure ops sys b).1 ≠ none)) ∧
    ((exporter.speedtest p x s).1 ≠ none ∧
      exporter.Collect ops p x s elapsed =
        (some (),
          (exporter.speedtest p x s).2.1 ++
            [exporter.Event.emit
              ⟨exporter.up,
               if (exporter.speedtest p x s).1 = some true then ops.lit 1 else ops.lit 0,
               []⟩,
             exporter.Event.emit ⟨exporter.scrapeDurationSeconds, elapsed, []⟩],
          (exporter.speedtest p x s).2.2) ∧
      (exporter.emitted (exporter.Collect ops p x s elapsed).2.1).filter
          (fun m => decide (m.desc = exporter.up)) =
        [⟨exporter.up,
          if (exporter.speedtest p x s).1 = some true then ops.lit 1 else ops.lit 0, []⟩] ∧
      (exporter.emitted (exporter.Collect ops p x s elapsed).2.1).filter
          (fun m => decide (m.desc = exporter.scrapeDurationSeconds)) =
        [⟨exporter.scrapeDurationSeconds, elapsed, []⟩] ∧
      (exporter.emitted (exporter.speedtest p x s).2.1).length ≤ 3) := by
  constructor
  · have hfacts := measure_emitted_facts ops sys b
    refine ⟨?_, hfacts.2, ?_⟩
    · intro hret
      rcases hm : bbk.measure ops sys b with ⟨r, tr⟩
      rw [hm] at hret hfacts
      cases r with
      | none => exact absurd rfl hret
      | some ok =>
        have hc := bbk_collect_of_returned ops sys b elapsed ok tr hm
        have hif : (if (some ok = some true) then ops.lit 1 else ops.lit 0) =
            (if ok then ops.lit 1 else ops.lit 0) := by
          cases ok <;> simp
        have hup : ∀ m ∈ bbk.emitted tr, m.desc ≠ bbk.up := by
          intro m hm2
          rcases hfacts.1 m hm2 with h | h | h <;> rw [h] <;> decide
        have hdur : ∀ m ∈ bbk.emitted tr, m.desc ≠ bbk.scrapeDurationSeconds := by
          intro m hm2
          rcases hfacts.1 m hm2 with h | h | h <;> rw [h] <;> decide
        have h1 : bbk.scrapeDurationSeconds ≠ bbk.up := by decide
        have h2 : bbk.up ≠ bbk.scrapeDurationSeconds := by decide
        simp only [hif]
        refine ⟨hc, ?_, ?_⟩
        · rw [hc, bbk_emitted_append]
          simp only [bbk.emitted]
          rw [filter_desc_tail _ _ _ _ hup]
          simp [h1]
        · rw [hc, bbk_emitted_append]
          simp only [bbk.emitted]
          rw [filter_desc_tail _ _ _ _ hdur]
          simp [h2]
    · intro hvalid hpanic
      exact measure_panic_label ops sys b hpanic hvalid
  · have hfacts := speedtest_emitted_facts p x s
    rcases hm : exporter.speedtest p x s with ⟨r, tr, s1⟩
    rw [hm] at hfacts
    cases r with
    | none => exact absurd rfl hfacts.1
    | some ok =>
      have hc := exporter_collect_of_returned ops p x s s1 elapsed ok tr hm
      have hif : (if (some ok = some true) then ops.lit 1 else ops.lit 0) =
          (if ok then ops.lit 1 else ops.lit 0) := by
        cases ok <;> simp
      have hup : ∀ m ∈ exporter.emitted tr, m.desc ≠ exporter.up := by
        intro m hm2
        rcases hfacts.2.1 m hm2 with h | h | h <;> rw [h] <;> decide
      have hdur : ∀ m ∈ exporter.emitted tr, m.desc ≠ exporter.scrapeDurationSeconds := by
        intro m hm2
        rcases hfacts.2.1 m hm2 with h | h | h <;> rw [h] <;> decide
      have h1 : exporter.scrapeDurationSeconds ≠ exporter.up := by decide
      have h2 : exporter.up ≠ exporter.scrapeDurationSeconds := by decide
      simp only [hif]
      refine ⟨by simp, hc, ?_, ?_, hfacts.2.2⟩
      · rw [hc, exporter_emitted_append]
        simp only [exporter.emitted]
        rw [filter_desc_tail _ _ _ _ hup]
        simp [h1]
      · rw [hc, exporter_emitted_append]
        simp only [exporter.emitted]
        rw [filter_desc_tail _ _ _ _ hdur]
        simp [h2]

/-- C4, amended, Scenario A as a whole cycle: the three samples, then `up = 1` and the
duration. -/
theorem collect_up_and_duration_witness :
    bbk.Collect decimalOps (cleanRun [gostr "150.5 20.3 12.8 srv01 ExampleISP"])
      (bbk.New "/usr/bin/bbk") 7 =
      (some (),
        [bbk.Event.emit ⟨bbk.download, 18812500, [gostr "srv01", gostr "ExampleISP"]⟩,
         bbk.Event.emit ⟨bbk.upload, 2537500, [gostr "srv01", gostr "ExampleISP"]⟩,
         bbk.Event.emit ⟨bbk.latency, 128 / 10000, [gostr "srv01", gostr "ExampleISP"]⟩,
         bbk.Event.emit ⟨bbk.up, 1, []⟩,
         bbk.Event.emit ⟨bbk.scrapeDurationSeconds, 7, []⟩]) := by
  have hm : bbk.measure decimalOps (cleanRun [gostr "150.5 20.3 12.8 srv01 ExampleISP"])
      (bbk.New "/usr/bin/bbk") =
      bbk.parseQuietOutput decimalOps (gostr "150.5 20.3 12.8 srv01 ExampleISP") := by
    rw [measure_of_clean_run decimalOps _ _ [gostr "150.5 20.3 12.8 srv01 ExampleISP"] rfl]
    have hne : ([gostr "150.5 20.3 12.8 srv01 ExampleISP"].getLast?.getD []) ≠ [] := by
      decide
    rw [if_neg hne]
    rfl
  have h := (collect_up_and_duration decimalOps
    (cleanRun [gostr "150.5 20.3 12.8 srv01 ExampleISP"]) (bbk.New "/usr/bin/bbk")
    (scriptedProvider none none none (false, 0) (false, 0) (false, 0))
    (exporter.New (-1) false) () 7).1.1
    (by rw [hm, parseQuietOutput_scenarioA]; simp)
  rw [h.1, hm, parseQuietOutput_scenarioA]
  simp [decimalOps]
